import Mathlib

/-!
Verification of the bdsg color core (packages/bdsg/src): hex/RGB/HSL
conversions, WCAG luminance/contrast, the OKLCH pipeline and the
contrast-adjustment algorithm, shallowly embedded in Lean.

Modelling conventions:
* JavaScript strings are modelled as `List Char` (`Str`); `trim` /
  `toUpperCase` are modelled on the ASCII range, which is exact for every
  character the color grammar can accept or produce.
* JavaScript numbers are modelled as exact rationals (`ℚ`); `Math.round`
  is `⌊x + 1/2⌋`, which is JavaScript's round-half-up.
* The one transcendental in the WCAG luminance formula, `x ** 2.4`, is
  abstracted as a parameter `GammaPow` carrying only the facts used by
  the theorems (it fixes `1`, and maps `[0,1]` into `[0,1]`), so every
  theorem about the adjustment pipeline holds for the real exponential
  in particular.
* The OKLCH pipeline (cube roots, `atan2`, gamma 2.4) is embedded over
  `ℝ` with the genuine transcendental functions.
-/

namespace Bdsg

/-- JavaScript strings, modelled as lists of characters. -/
abbrev Str := List Char

/-- Characters removed by JavaScript `String.prototype.trim` (ASCII
whitespace plus NBSP; the full Unicode set is irrelevant to the color
grammar). -/
def isJsWhitespace (c : Char) : Bool :=
  c.toNat = 9 || c.toNat = 10 || c.toNat = 11 || c.toNat = 12 ||
  c.toNat = 13 || c.toNat = 32 || c.toNat = 160

/-- `String.prototype.trim`: drop whitespace from both ends. -/
def jsTrim (s : Str) : Str :=
  ((s.dropWhile isJsWhitespace).reverse.dropWhile isJsWhitespace).reverse

/-- `String.prototype.toUpperCase` on one character (ASCII range). -/
def toUpperChar (c : Char) : Char :=
  if 97 ≤ c.toNat ∧ c.toNat ≤ 122 then Char.ofNat (c.toNat - 32) else c

/-- `String.prototype.toUpperCase` (ASCII range). -/
def jsToUpper (s : Str) : Str := s.map toUpperChar

/-- The regex character class `[A-Fa-f\d]` used by the hex regexes. -/
def isHexDigitJs (c : Char) : Bool :=
  (48 ≤ c.toNat && c.toNat ≤ 57) ||
  (65 ≤ c.toNat && c.toNat ≤ 70) ||
  (97 ≤ c.toNat && c.toNat ≤ 102)

/-- Value of one hex digit, as consumed by `Number.parseInt(·, 16)`. -/
def hexDigitVal (c : Char) : ℕ :=
  if 48 ≤ c.toNat ∧ c.toNat ≤ 57 then c.toNat - 48
  else if 97 ≤ c.toNat ∧ c.toNat ≤ 102 then c.toNat - 87
  else c.toNat - 55

/-- Lowercase hex digit `n.toString(16)` for `n < 16`. -/
def hexDigitLower (n : ℕ) : Char :=
  if n < 10 then Char.ofNat (48 + n) else Char.ofNat (87 + n)

/-- JavaScript `Math.round`: round half toward positive infinity. -/
def jsRound (x : ℚ) : ℤ := ⌊x + 1/2⌋

/-- JavaScript `Math.max` on two numbers (NaN is outside the model). -/
def jsMax (a b : ℚ) : ℚ := if a ≤ b then b else a

/-- JavaScript `Math.min` on two numbers. -/
def jsMin (a b : ℚ) : ℚ := if a ≤ b then a else b

/-- RGB color record (`{r,g,b}`, JavaScript numbers). -/
structure RGB where
  r : ℚ
  g : ℚ
  b : ℚ
deriving DecidableEq, Repr

/-- HSL color record (`{h,s,l}`, JavaScript numbers). -/
structure HSL where
  h : ℚ
  s : ℚ
  l : ℚ
deriving DecidableEq, Repr

/-- The `#`-prefixing step of `normalizeHex`:
`if (!normalized.startsWith("#")) normalized = "#" + normalized`. -/
def withHash (s : Str) : Str :=
  if s.head? = some '#' then s else '#' :: s

/-- The shorthand step of `normalizeHex`: the regex
`^#([A-Fa-f\d])([A-Fa-f\d])([A-Fa-f\d])$` expanded to `#rrggbb`. -/
def expandShorthand (s : Str) : Str :=
  match s with
  | ['#', a, b, c] =>
      if isHexDigitJs a && isHexDigitJs b && isHexDigitJs c then
        ['#', a, a, b, b, c, c]
      else s
  | _ => s

/-- `normalizeHex` from color-utils.ts: trim, add `#`, expand shorthand,
uppercase. -/
def normalizeHex (hex : Str) : Str :=
  jsToUpper (expandShorthand (withHash (jsTrim hex)))

/-- The final regex of `hexToRgb`, `^#([A-F\d]{2})([A-F\d]{2})([A-F\d]{2})$/i`,
together with the `parseInt(·, 16)` of the three capture groups. -/
def parseHex6 (s : Str) : Option RGB :=
  match s with
  | ['#', r1, r2, g1, g2, b1, b2] =>
      if isHexDigitJs r1 && isHexDigitJs r2 && isHexDigitJs g1 &&
         isHexDigitJs g2 && isHexDigitJs b1 && isHexDigitJs b2 then
        some ⟨(16 * hexDigitVal r1 + hexDigitVal r2 : ℕ),
              (16 * hexDigitVal g1 + hexDigitVal g2 : ℕ),
              (16 * hexDigitVal b1 + hexDigitVal b2 : ℕ)⟩
      else none
  | _ => none

/-- `hexToRgb` from color-utils.ts; the thrown `Invalid hex color` error is
modelled as `none`. -/
def hexToRgb (hex : Str) : Option RGB :=
  parseHex6 (normalizeHex hex)

/-- The `toHex` helper of `rgbToHex`:
`Math.round(Math.max(0, Math.min(255, n))).toString(16).padStart(2, "0")`
(the clamped value is in `[0,255]`, where `padStart` yields exactly two
lowercase digits). -/
def toHexPair (n : ℚ) : Str :=
  let v := (jsRound (jsMax 0 (jsMin 255 n))).toNat
  [hexDigitLower (v / 16), hexDigitLower (v % 16)]

/-- The clamped, rounded channel value formatted by `toHexPair`;
used to state the `rgbToHex`/`hexToRgb` round trip. -/
def clampRound255 (n : ℚ) : ℕ := (jsRound (jsMax 0 (jsMin 255 n))).toNat

/-- `rgbToHex` from color-utils.ts: clamp, round, format `#rrggbb`. -/
def rgbToHex (rgb : RGB) : Str :=
  '#' :: (toHexPair rgb.r ++ toHexPair rgb.g ++ toHexPair rgb.b)

/-- `rgbToHsl` from color-utils.ts. -/
def rgbToHsl (rgb : RGB) : HSL :=
  let r := rgb.r / 255
  let g := rgb.g / 255
  let b := rgb.b / 255
  let maxC := jsMax r (jsMax g b)
  let minC := jsMin r (jsMin g b)
  let delta := maxC - minC
  let l := (maxC + minC) / 2
  let s := if delta ≠ 0 then
      (if l > 1/2 then delta / (2 - maxC - minC) else delta / (maxC + minC))
    else 0
  let h := if delta ≠ 0 then
      (if maxC = r then ((g - b) / delta + (if g < b then 6 else 0)) / 6
       else if maxC = g then ((b - r) / delta + 2) / 6
       else ((r - g) / delta + 4) / 6)
    else 0
  ⟨(jsRound (h * 360) : ℤ), (jsRound (s * 100) : ℤ), (jsRound (l * 100) : ℤ)⟩

/-- The hue fraction computed inside `rgbToHsl` (the value of its local
`h` before scaling by 360 and rounding), as a standalone function of the
normalized channels; used to state bounds. -/
def hslHueFrac (r g b : ℚ) : ℚ :=
  let maxC := jsMax r (jsMax g b)
  let minC := jsMin r (jsMin g b)
  let delta := maxC - minC
  if delta ≠ 0 then
    (if maxC = r then ((g - b) / delta + (if g < b then 6 else 0)) / 6
     else if maxC = g then ((b - r) / delta + 2) / 6
     else ((r - g) / delta + 4) / 6)
  else 0

/-- The saturation fraction computed inside `rgbToHsl`. -/
def hslSatFrac (r g b : ℚ) : ℚ :=
  let maxC := jsMax r (jsMax g b)
  let minC := jsMin r (jsMin g b)
  let delta := maxC - minC
  let l := (maxC + minC) / 2
  if delta ≠ 0 then
    (if l > 1/2 then delta / (2 - maxC - minC) else delta / (maxC + minC))
  else 0

/-- The lightness fraction computed inside `rgbToHsl`. -/
def hslLightFrac (r g b : ℚ) : ℚ :=
  (jsMax r (jsMax g b) + jsMin r (jsMin g b)) / 2

/-- The `hue2rgb` helper of `hslToRgb`. -/
def hue2rgb (p q tParam : ℚ) : ℚ :=
  let t := tParam
  let t := if t < 0 then t + 1 else t
  let t := if t > 1 then t - 1 else t
  if t < 1/6 then p + (q - p) * 6 * t
  else if t < 1/2 then q
  else if t < 2/3 then p + (q - p) * (2/3 - t) * 6
  else p

/-- `hslToRgb` from color-utils.ts. -/
def hslToRgb (hsl : HSL) : RGB :=
  let h := hsl.h / 360
  let s := hsl.s / 100
  let l := hsl.l / 100
  if s = 0 then
    ⟨(jsRound (l * 255) : ℤ), (jsRound (l * 255) : ℤ), (jsRound (l * 255) : ℤ)⟩
  else
    let q := if l < 1/2 then l * (1 + s) else l + s - l * s
    let p := 2 * l - q
    ⟨(jsRound (hue2rgb p q (h + 1/3) * 255) : ℤ),
     (jsRound (hue2rgb p q h * 255) : ℤ),
     (jsRound (hue2rgb p q (h - 1/3) * 255) : ℤ)⟩

/-- `hexToHsl = rgbToHsl ∘ hexToRgb`. -/
def hexToHsl (hex : Str) : Option HSL :=
  (hexToRgb hex).map rgbToHsl

/-- `hslToHex = rgbToHex ∘ hslToRgb`. -/
def hslToHex (hsl : HSL) : Str :=
  rgbToHex (hslToRgb hsl)

/-- Abstraction of the JavaScript expression `x ** 2.4` occurring in the
WCAG channel linearization of contrast.ts.  The function is kept abstract
(the true map is transcendental); the only facts recorded are ones the
real `x ↦ x^2.4` satisfies: it fixes `1` and maps `[0,1]` into `[0,1]`.
Every theorem quantified over a `GammaPow` therefore holds for the real
exponentiation in particular. -/
structure GammaPow where
  f : ℚ → ℚ
  f_one : f 1 = 1
  f_range : ∀ x : ℚ, 0 ≤ x → x ≤ 1 → 0 ≤ f x ∧ f x ≤ 1

/-- A concrete admissible `GammaPow` (`x ↦ x²`), used to evaluate the
pipeline on closed inputs. -/
def pow24Sq : GammaPow where
  f := fun x => x * x
  f_one := by norm_num
  f_range := fun x h0 h1 => ⟨mul_nonneg h0 h0, mul_le_one₀ h1 h0 h1⟩

/-- One channel of `getRelativeLuminance`:
`c <= 0.03928 ? c / 12.92 : ((c + 0.055) / 1.055) ** 2.4`. -/
def linearizeChannel (P : GammaPow) (c : ℚ) : ℚ :=
  if c ≤ 0.03928 then c / 12.92 else P.f ((c + 0.055) / 1.055)

/-- The luminance computation of `getRelativeLuminance` after `hexToRgb`:
`0.2126 * rLinear + 0.7152 * gLinear + 0.0722 * bLinear`. -/
def lumRGB (P : GammaPow) (rgb : RGB) : ℚ :=
  0.2126 * linearizeChannel P (rgb.r / 255) +
  0.7152 * linearizeChannel P (rgb.g / 255) +
  0.0722 * linearizeChannel P (rgb.b / 255)

/-- `getRelativeLuminance` from contrast.ts as a pure function (the
memo cache is modelled explicitly below and proven observationally pure,
so the rest of the development uses this cacheless form). -/
def getRelativeLuminance (P : GammaPow) (hex : Str) : Option ℚ :=
  (hexToRgb hex).map (lumRGB P)

/-- The luminance cache: a `Map<string, number>` as an association list
in insertion order. -/
abbrev LuminanceCache := List (Str × ℚ)

/-- `Map.prototype.get`. -/
def cacheGet (m : LuminanceCache) (k : Str) : Option ℚ :=
  (m.find? (fun e => e.1 == k)).map (fun e => e.2)

/-- `Map.prototype.set`: update an existing key in place, else append. -/
def cacheSet (m : LuminanceCache) (k : Str) (v : ℚ) : LuminanceCache :=
  if (cacheGet m k).isSome then
    m.map (fun e => if e.1 == k then (k, v) else e)
  else m ++ [(k, v)]

/-- The cache key of `getRelativeLuminance`: `hex.trim().toUpperCase()`. -/
def luminanceKey (hex : Str) : Str := jsToUpper (jsTrim hex)

/-- `getRelativeLuminance` with its cache made explicit: look up the
normalized key; on a miss compute from the *original* string via
`hexToRgb` and store under the normalized key.  A thrown
`Invalid hex color` error leaves the cache unchanged. -/
def getRelativeLuminanceWithCache (P : GammaPow) (m : LuminanceCache)
    (hex : Str) : Option ℚ × LuminanceCache :=
  let key := luminanceKey hex
  match cacheGet m key with
  | some v => (some v, m)
  | none =>
      match hexToRgb hex with
      | none => (none, m)
      | some rgb =>
          let luminance := lumRGB P rgb
          (some luminance, cacheSet m key luminance)

/-- `clearLuminanceCache`: `luminanceCache.clear()`. -/
def clearLuminanceCache : LuminanceCache := []

/-- Cache states reachable from the initial empty cache by any
interleaving of `getRelativeLuminance` and `clearLuminanceCache` calls. -/
inductive CacheReachable (P : GammaPow) : LuminanceCache → Prop
  | empty : CacheReachable P []
  | lum (m : LuminanceCache) (hex : Str) :
      CacheReachable P m → CacheReachable P (getRelativeLuminanceWithCache P m hex).2
  | clear (m : LuminanceCache) :
      CacheReachable P m → CacheReachable P clearLuminanceCache

/-- `(lighter + 0.05) / (darker + 0.05)` of `calculateContrast`. -/
def contrastOfLums (l1 l2 : ℚ) : ℚ :=
  (jsMax l1 l2 + 0.05) / (jsMin l1 l2 + 0.05)

/-- `calculateContrast` from contrast.ts (cacheless luminance, see
`CacheReachable`). -/
def calculateContrast (P : GammaPow) (foreground background : Str) : Option ℚ :=
  match getRelativeLuminance P foreground, getRelativeLuminance P background with
  | some l1, some l2 => some (contrastOfLums l1 l2)
  | _, _ => none

/-- WCAG conformance levels. -/
inductive WCAGLevel | AA | AAA
deriving DecidableEq, Repr

/-- Text size categories. -/
inductive TextSize | normal | large
deriving DecidableEq, Repr

/-- One row of `WCAG_REQUIREMENTS`. -/
structure WCAGRow where
  normal : ℚ
  large : ℚ
  ui : ℚ
deriving DecidableEq, Repr

/-- The `WCAG_REQUIREMENTS` table from contrast.ts. -/
def WCAG_REQUIREMENTS : WCAGLevel → WCAGRow
  | .AA => ⟨4.5, 3.0, 3.0⟩
  | .AAA => ⟨7.0, 4.5, 3.0⟩

/-- The indexing `WCAG_REQUIREMENTS[level][size]` (a `TextSize` is
`"normal" | "large"`, so the `ui` column is unreachable here). -/
def requirementFor (level : WCAGLevel) (size : TextSize) : ℚ :=
  match size with
  | .normal => (WCAG_REQUIREMENTS level).normal
  | .large => (WCAG_REQUIREMENTS level).large

/-- `meetsWCAG` from contrast.ts: `ratio >= WCAG_REQUIREMENTS[level][size]`. -/
def meetsWCAG (ratio : ℚ) (level : WCAGLevel) (size : TextSize) : Bool :=
  decide (requirementFor level size ≤ ratio)

/-- The `strategy` tag of an adjustment result. -/
inductive Strategy | lightness | chroma | fallback
deriving DecidableEq, Repr

/-- `AdjustmentResult` from adjust.ts. -/
structure AdjustmentResult where
  original : Str
  adjusted : Str
  ratio : ℚ
  iterations : ℕ
  strategy : Strategy
deriving DecidableEq, Repr

/-- `bestResult` entries of the binary searches (`{ l, ratio }`; Phase 2
reuses the `l` field for a saturation value, as the source does). -/
structure BestResult where
  l : ℚ
  ratio : ℚ
deriving DecidableEq, Repr

/-- The mutable state of the two `while` loops of `adjustColorForContrast`:
`low`, `high`, `iterations`, `bestResult`. -/
structure SearchState where
  low : ℚ
  high : ℚ
  iterations : ℕ
  best : Option BestResult
deriving DecidableEq, Repr

/-- Phase 1 of `adjustColorForContrast`: the lightness binary search
`while (high - low > 0.5 && iterations < 20)`.  The loop is embedded with
a fuel argument; the guard `iterations < 20` itself bounds the number of
steps, so any fuel ≥ `20 - iterations` gives the loop's exact behavior.
A thrown error from `calculateContrast` propagates as `none` (it is proved
never to occur for a valid background). -/
def phase1Loop (P : GammaPow) (background : Str) (fgHsl : HSL)
    (shouldLighten : Bool) (targetRatio : ℚ) :
    ℕ → SearchState → Option SearchState
  | 0, st => some st
  | fuel + 1, st =>
      if st.high - st.low > 0.5 ∧ st.iterations < 20 then
        let mid := (st.low + st.high) / 2
        let testColor := hslToHex ⟨fgHsl.h, fgHsl.s, mid⟩
        match calculateContrast P testColor background with
        | none => none
        | some ratio =>
            if targetRatio ≤ ratio then
              phase1Loop P background fgHsl shouldLighten targetRatio fuel
                (if shouldLighten then
                  ⟨st.low, mid, st.iterations + 1, some ⟨mid, ratio⟩⟩
                 else
                  ⟨mid, st.high, st.iterations + 1, some ⟨mid, ratio⟩⟩)
            else
              phase1Loop P background fgHsl shouldLighten targetRatio fuel
                (if shouldLighten then
                  ⟨mid, st.high, st.iterations + 1, st.best⟩
                 else
                  ⟨st.low, mid, st.iterations + 1, st.best⟩)
      else some st

/-- Phase 2 of `adjustColorForContrast`: the saturation binary search
`while (high - low > 1 && iterations < 40)` at the pinned lightness. -/
def phase2Loop (P : GammaPow) (background : Str) (fgHue maxedLightness : ℚ)
    (targetRatio : ℚ) : ℕ → SearchState → Option SearchState
  | 0, st => some st
  | fuel + 1, st =>
      if st.high - st.low > 1 ∧ st.iterations < 40 then
        let mid := (st.low + st.high) / 2
        let testColor := hslToHex ⟨fgHue, mid, maxedLightness⟩
        match calculateContrast P testColor background with
        | none => none
        | some ratio =>
            if targetRatio ≤ ratio then
              phase2Loop P background fgHue maxedLightness targetRatio fuel
                ⟨mid, st.high, st.iterations + 1, some ⟨mid, ratio⟩⟩
            else
              phase2Loop P background fgHue maxedLightness targetRatio fuel
                ⟨st.low, mid, st.iterations + 1, st.best⟩
      else some st

/-- `adjustColorForContrast` from adjust.ts.  Thrown errors (invalid hex
inputs) are modelled as `none`. -/
def adjustColorForContrast (P : GammaPow) (foreground background : Str)
    (targetLevel : WCAGLevel := .AA) (textSize : TextSize := .normal) :
    Option AdjustmentResult :=
  let targetRatio := requirementFor targetLevel textSize
  match calculateContrast P foreground background with
  | none => none
  | some initialRatio =>
    if targetRatio ≤ initialRatio then
      some ⟨foreground, foreground, initialRatio, 0, .lightness⟩
    else
      match hexToHsl foreground, getRelativeLuminance P foreground,
            getRelativeLuminance P background with
      | some fgHsl, some fgLuminance, some bgLuminance =>
          let originalSaturation := fgHsl.s
          let shouldLighten := fgLuminance < bgLuminance
          let low := if shouldLighten then fgHsl.l else 0
          let high := if shouldLighten then 100 else fgHsl.l
          match phase1Loop P background fgHsl shouldLighten targetRatio 20
              ⟨low, high, 0, none⟩ with
          | none => none
          | some st1 =>
            match st1.best with
            | some best =>
                some ⟨foreground, hslToHex ⟨fgHsl.h, fgHsl.s, best.l⟩,
                      best.ratio, st1.iterations, .lightness⟩
            | none =>
              let maxedLightness : ℚ := if shouldLighten then 98 else 2
              match phase2Loop P background fgHsl.h maxedLightness targetRatio 40
                  ⟨0, originalSaturation, st1.iterations, none⟩ with
              | none => none
              | some st2 =>
                match st2.best with
                | some best =>
                    some ⟨foreground, hslToHex ⟨fgHsl.h, best.l, maxedLightness⟩,
                          best.ratio, st2.iterations, .chroma⟩
                | none =>
                  match calculateContrast P "#ffffff".data background,
                        calculateContrast P "#000000".data background with
                  | some whiteRatio, some blackRatio =>
                      if blackRatio < whiteRatio then
                        some ⟨foreground, "#ffffff".data, whiteRatio,
                              st2.iterations, .fallback⟩
                      else
                        some ⟨foreground, "#000000".data, blackRatio,
                              st2.iterations, .fallback⟩
                  | _, _ => none
      | _, _, _ => none

/-!
The OKLCH module (oklch.ts and schemas.ts).  This pipeline uses the
genuine transcendental functions (`** 2.4`, `Math.cbrt`, `Math.atan2`,
`Math.sin`/`Math.cos`), so it is embedded over `ℝ`.
-/

/-- OKLCH color record (`{l,c,h}`). -/
structure OKLCH where
  l : ℝ
  c : ℝ
  h : ℝ

/-- OKLAB color record (intermediate `{l,a,b}`). -/
structure OKLAB where
  l : ℝ
  a : ℝ
  b : ℝ

/-- `Math.round` on a real (round half toward positive infinity). -/
noncomputable def jsRoundR (x : ℝ) : ℤ := ⌊x + 1/2⌋

/-- `Math.cbrt`. -/
noncomputable def mathCbrt (x : ℝ) : ℝ := Real.sign x * |x| ^ ((1 : ℝ)/3)

/-- `Math.atan2(y, x)`, as the argument of the complex number `x + y·i`
(range `(-π, π]`). -/
noncomputable def mathAtan2 (y x : ℝ) : ℝ := Complex.arg ⟨x, y⟩

/-- `srgbToLinear` from oklch.ts (inverse gamma, threshold 0.04045). -/
noncomputable def srgbToLinear (c : ℝ) : ℝ :=
  if |c| ≤ 0.04045 then c / 12.92
  else Real.sign c * ((|c| + 0.055) / 1.055) ^ (2.4 : ℝ)

/-- `linearToSrgb` from oklch.ts (forward gamma, threshold 0.0031308). -/
noncomputable def linearToSrgb (c : ℝ) : ℝ :=
  if |c| ≤ 0.0031308 then c * 12.92
  else Real.sign c * (1.055 * |c| ^ ((1 : ℝ)/2.4) - 0.055)

/-- `rgbToOklab` from oklch.ts: linearize, the RGB→LMS matrix, cube
roots, the LMS→OKLAB matrix. -/
noncomputable def rgbToOklab (rgb : RGB) : OKLAB :=
  let r := srgbToLinear ((rgb.r : ℝ) / 255)
  let g := srgbToLinear ((rgb.g : ℝ) / 255)
  let b := srgbToLinear ((rgb.b : ℝ) / 255)
  let l := 0.4122214708 * r + 0.5363325363 * g + 0.0514459929 * b
  let m := 0.2119034982 * r + 0.6806995451 * g + 0.1073969566 * b
  let s := 0.0883024619 * r + 0.2817188376 * g + 0.6299787005 * b
  let l_ := mathCbrt l
  let m_ := mathCbrt m
  let s_ := mathCbrt s
  ⟨0.2104542553 * l_ + 0.793617785 * m_ - 0.0040720468 * s_,
   1.9779984951 * l_ - 2.428592205 * m_ + 0.4505937099 * s_,
   0.0259040371 * l_ + 0.7827717662 * m_ - 0.808675766 * s_⟩

/-- `oklabToRgb` from oklch.ts: the OKLAB→LMS matrix, cubes, the
LMS→linear-RGB matrix, gamma, clamp, scale, round. -/
noncomputable def oklabToRgb (lab : OKLAB) : RGB :=
  let l_ := lab.l + 0.3963377774 * lab.a + 0.2158037573 * lab.b
  let m_ := lab.l - 0.1055613458 * lab.a - 0.0638541728 * lab.b
  let s_ := lab.l - 0.0894841775 * lab.a - 1.291485548 * lab.b
  let l := l_ * l_ * l_
  let m := m_ * m_ * m_
  let s := s_ * s_ * s_
  let rLin := 4.0767416621 * l - 3.3077115913 * m + 0.2309699292 * s
  let gLin := -1.2684380046 * l + 2.6097574011 * m - 0.3413193965 * s
  let bLin := -0.0041960863 * l - 0.7034186147 * m + 1.707614701 * s
  ⟨(jsRoundR (max 0 (min 1 (linearToSrgb rLin)) * 255) : ℤ),
   (jsRoundR (max 0 (min 1 (linearToSrgb gLin)) * 255) : ℤ),
   (jsRoundR (max 0 (min 1 (linearToSrgb bLin)) * 255) : ℤ)⟩

/-- `oklabToOklch` from oklch.ts; hue normalized to `[0,360)` and forced
to 0 for near-achromatic colors (`c < 0.0001`). -/
noncomputable def oklabToOklch (lab : OKLAB) : OKLCH :=
  let c := Real.sqrt (lab.a * lab.a + lab.b * lab.b)
  let h0 := mathAtan2 lab.b lab.a * 180 / Real.pi
  let h := if h0 < 0 then h0 + 360 else h0
  ⟨lab.l, c, if c < 0.0001 then 0 else h⟩

/-- `oklchToOklab` from oklch.ts. -/
noncomputable def oklchToOklab (lch : OKLCH) : OKLAB :=
  let hRad := lch.h * Real.pi / 180
  ⟨lch.l, lch.c * Real.cos hRad, lch.c * Real.sin hRad⟩

/-- `HexColorSchema` from schemas.ts: the regex
`^#?([A-Fa-f0-9]{6}|[A-Fa-f0-9]{3})$` (no whitespace trimming). -/
def hexColorSchemaOK (s : Str) : Bool :=
  let body := if s.head? = some '#' then s.tail else s
  (body.length = 6 || body.length = 3) && body.all isHexDigitJs

/-- `OklchSchema` from schemas.ts: `l ∈ [0,1]`, `c ≥ 0`, `h ∈ [0,360]`. -/
def OklchSchemaOK (o : OKLCH) : Prop :=
  0 ≤ o.l ∧ o.l ≤ 1 ∧ 0 ≤ o.c ∧ 0 ≤ o.h ∧ o.h ≤ 360

/-- `InterpolationFactorSchema` from schemas.ts: `t ∈ [0,1]`. -/
def interpolationFactorOK (t : ℝ) : Prop := 0 ≤ t ∧ t ≤ 1

/-- `hexToOklch` from oklch.ts: validate against `HexColorSchema`
(throw = `none`), then `hexToRgb`, `rgbToOklab`, `oklabToOklch`. -/
noncomputable def hexToOklch (hex : Str) : Option OKLCH :=
  if hexColorSchemaOK hex then
    (hexToRgb hex).map (fun rgb => oklabToOklch (rgbToOklab rgb))
  else none

open Classical in
/-- `oklchToHex` from oklch.ts: validate against `OklchSchema`
(throw = `none`), then `oklchToOklab`, `oklabToRgb`, `rgbToHex`. -/
noncomputable def oklchToHex (lch : OKLCH) : Option Str :=
  if OklchSchemaOK lch then
    some (rgbToHex (oklabToRgb (oklchToOklab lch)))
  else none

open Classical in
/-- `interpolateOklch` from oklch.ts: validate both endpoints (throw =
`none`), clamp `t` when it fails its schema, interpolate `l`/`c`
linearly and `h` along the adjusted delta, then wrap into `[0,360)`. -/
noncomputable def interpolateOklch (color1 color2 : OKLCH) (t : ℝ) :
    Option OKLCH :=
  if OklchSchemaOK color1 ∧ OklchSchemaOK color2 then
    let factor := if interpolationFactorOK t then t else max 0 (min 1 t)
    let l := color1.l + (color2.l - color1.l) * factor
    let c := color1.c + (color2.c - color1.c) * factor
    let h1 := if color1.c < 0.0001 then color2.h else color1.h
    let h2 := if color2.c < 0.0001 then h1 else color2.h
    let deltaH0 := h2 - h1
    let deltaH :=
      if deltaH0 > 180 then deltaH0 - 360
      else if deltaH0 < -180 then deltaH0 + 360 else deltaH0
    let hRaw := h1 + deltaH * factor
    let hPos := if hRaw < 0 then hRaw + 360 else hRaw
    let h := if hPos ≥ 360 then hPos - 360 else hPos
    some ⟨l, c, h⟩
  else none

open Classical in
/-- The effective start hue of `interpolateOklch` after its achromatic
fix-up (`if (color1.c < 0.0001) h1 = h2`), as a standalone function used
to state the shortest-path property. -/
noncomputable def effectiveHue1 (color1 color2 : OKLCH) : ℝ :=
  if color1.c < 0.0001 then color2.h else color1.h

open Classical in
/-- The effective end hue of `interpolateOklch` after its achromatic
fix-up (`if (color2.c < 0.0001) h2 = h1`, sequentially after the first). -/
noncomputable def effectiveHue2 (color1 color2 : OKLCH) : ℝ :=
  if color2.c < 0.0001 then effectiveHue1 color1 color2 else color2.h

open Classical in
/-- The adjusted hue delta of `interpolateOklch`: subtract or add 360
when the raw delta leaves `(-180, 180)`. -/
noncomputable def shortestHueDelta (h1 h2 : ℝ) : ℝ :=
  if h2 - h1 > 180 then h2 - h1 - 360
  else if h2 - h1 < -180 then h2 - h1 + 360
  else h2 - h1

/-- The linearized red channel inside `rgbToOklab`, as a named function
(used to state numeric bounds). -/
noncomputable def linR (rgb : RGB) : ℝ := srgbToLinear ((rgb.r : ℝ) / 255)

/-- The linearized green channel inside `rgbToOklab`. -/
noncomputable def linG (rgb : RGB) : ℝ := srgbToLinear ((rgb.g : ℝ) / 255)

/-- The linearized blue channel inside `rgbToOklab`. -/
noncomputable def linB (rgb : RGB) : ℝ := srgbToLinear ((rgb.b : ℝ) / 255)

/-- The L row of the RGB→LMS matrix inside `rgbToOklab`. -/
noncomputable def lmsFwdL (rgb : RGB) : ℝ :=
  0.4122214708 * linR rgb + 0.5363325363 * linG rgb + 0.0514459929 * linB rgb

/-- The M row of the RGB→LMS matrix inside `rgbToOklab`. -/
noncomputable def lmsFwdM (rgb : RGB) : ℝ :=
  0.2119034982 * linR rgb + 0.6806995451 * linG rgb + 0.1073969566 * linB rgb

/-- The S row of the RGB→LMS matrix inside `rgbToOklab`. -/
noncomputable def lmsFwdS (rgb : RGB) : ℝ :=
  0.0883024619 * linR rgb + 0.2817188376 * linG rgb + 0.6299787005 * linB rgb

/-- The `l_` value inside `oklabToRgb`. -/
noncomputable def lmsL (lab : OKLAB) : ℝ :=
  lab.l + 0.3963377774 * lab.a + 0.2158037573 * lab.b

/-- The `m_` value inside `oklabToRgb`. -/
noncomputable def lmsM (lab : OKLAB) : ℝ :=
  lab.l - 0.1055613458 * lab.a - 0.0638541728 * lab.b

/-- The `s_` value inside `oklabToRgb`. -/
noncomputable def lmsS (lab : OKLAB) : ℝ :=
  lab.l - 0.0894841775 * lab.a - 1.291485548 * lab.b

/-- The linear red value inside `oklabToRgb`. -/
noncomputable def rLinOf (lab : OKLAB) : ℝ :=
  4.0767416621 * (lmsL lab * lmsL lab * lmsL lab) -
  3.3077115913 * (lmsM lab * lmsM lab * lmsM lab) +
  0.2309699292 * (lmsS lab * lmsS lab * lmsS lab)

/-- The linear green value inside `oklabToRgb`. -/
noncomputable def gLinOf (lab : OKLAB) : ℝ :=
  -1.2684380046 * (lmsL lab * lmsL lab * lmsL lab) +
  2.6097574011 * (lmsM lab * lmsM lab * lmsM lab) -
  0.3413193965 * (lmsS lab * lmsS lab * lmsS lab)

/-- The linear blue value inside `oklabToRgb`. -/
noncomputable def bLinOf (lab : OKLAB) : ℝ :=
  -0.0041960863 * (lmsL lab * lmsL lab * lmsL lab) -
  0.7034186147 * (lmsM lab * lmsM lab * lmsM lab) +
  1.707614701 * (lmsS lab * lmsS lab * lmsS lab)

/-- Modelled from the spec (claim C8's grammar): after trimming
surrounding whitespace, an optional `#` followed by 3 or 6 hex digits in
either case. -/
def specHexGrammarOK (s : Str) : Bool :=
  let t := jsTrim s
  let body := if t.head? = some '#' then t.tail else t
  (body.length = 3 || body.length = 6) && body.all isHexDigitJs

/-! Helper lemmas. -/

theorem jsMax_eq (a b : ℚ) : jsMax a b = max a b := by
  unfold jsMax
  split
  · exact (max_eq_right (by assumption)).symm
  · exact (max_eq_left (le_of_not_le (by assumption))).symm

theorem jsMin_eq (a b : ℚ) : jsMin a b = min a b := by
  unfold jsMin
  split
  · exact (min_eq_left (by assumption)).symm
  · exact (min_eq_right (le_of_not_le (by assumption))).symm

theorem jsRound_mem (x : ℚ) (n : ℕ) (h0 : 0 ≤ x) (h1 : x ≤ n) :
    0 ≤ jsRound x ∧ jsRound x ≤ n := by
  unfold jsRound
  refine ⟨Int.floor_nonneg.mpr (by linarith), Int.floor_le_iff.mpr ?_⟩
  push_cast
  linarith

theorem charToNat_ofNat (n : ℕ) (h : n < 55296) : (Char.ofNat n).toNat = n := by
  simp only [Char.ofNat, Nat.isValidChar, Char.ofNatAux, Char.toNat]
  rw [dif_pos (Or.inl h)]
  rfl

theorem isHexDigitJs_toUpperChar (c : Char) :
    isHexDigitJs (toUpperChar c) = isHexDigitJs c := by
  unfold toUpperChar
  split
  · next hlc =>
      have hofs : (Char.ofNat (c.toNat - 32)).toNat = c.toNat - 32 :=
        charToNat_ofNat _ (by omega)
      rw [Bool.eq_iff_iff]
      simp only [isHexDigitJs, hofs, Bool.or_eq_true, Bool.and_eq_true,
        decide_eq_true_eq]
      omega
  · rfl

theorem toUpperChar_hash : toUpperChar '#' = '#' := by decide

theorem toUpperChar_eq_hash_iff (c : Char) : toUpperChar c = '#' ↔ c = '#' := by
  unfold toUpperChar
  split
  · next hlc =>
      constructor
      · intro h
        exfalso
        have hof := congrArg Char.toNat h
        rw [charToNat_ofNat _ (by omega)] at hof
        have h35 : ('#' : Char).toNat = 35 := by decide
        rw [h35] at hof
        omega
      · intro h
        subst h
        exact absurd hlc (by decide)
  · exact Iff.rfl

theorem not_ws_of_isHexDigitJs (c : Char) (h : isHexDigitJs c = true) :
    isJsWhitespace c = false := by
  simp only [isHexDigitJs, Bool.or_eq_true, Bool.and_eq_true,
    decide_eq_true_eq] at h
  simp only [isJsWhitespace, Bool.or_eq_false_iff, decide_eq_false_iff_not]
  omega

theorem dropWhile_eq_self_of_head (p : Char → Bool) (u : Str)
    (h : ∀ a ∈ u.head?, p a = false) : u.dropWhile p = u := by
  cases u with
  | nil => rfl
  | cons a l =>
      rw [List.dropWhile_cons, h a rfl]
      simp

theorem jsTrim_eq_self (s : Str)
    (h1 : ∀ a ∈ s.head?, isJsWhitespace a = false)
    (h2 : ∀ a ∈ s.getLast?, isJsWhitespace a = false) :
    jsTrim s = s := by
  unfold jsTrim
  rw [dropWhile_eq_self_of_head _ _ h1,
    dropWhile_eq_self_of_head _ _ (by simpa [List.head?_reverse] using h2),
    List.reverse_reverse]

theorem hexDigitLower_facts (d : ℕ) (h : d < 16) :
    isHexDigitJs (hexDigitLower d) = true ∧
    isJsWhitespace (hexDigitLower d) = false ∧
    hexDigitVal (toUpperChar (hexDigitLower d)) = d := by
  interval_cases d <;> exact ⟨by decide, by decide, by decide⟩

theorem jsTrim_eq_self_of_forall (s : Str)
    (h : ∀ a ∈ s, isJsWhitespace a = false) : jsTrim s = s := by
  refine jsTrim_eq_self s ?_ ?_
  · intro a ha
    exact h a (List.mem_of_mem_head? ha)
  · intro a ha
    obtain ⟨hne, rfl⟩ := List.mem_getLast?_eq_getLast ha
    exact h _ (List.getLast_mem hne)

theorem clampRound255_le (n : ℚ) : clampRound255 n ≤ 255 := by
  unfold clampRound255
  have h0 : 0 ≤ jsMax 0 (jsMin 255 n) := by
    rw [jsMax_eq]
    exact le_max_left _ _
  have h1 : jsMax 0 (jsMin 255 n) ≤ 255 := by
    rw [jsMax_eq, jsMin_eq]
    exact max_le (by norm_num) (min_le_left _ _)
  have := jsRound_mem _ 255 h0 (by exact_mod_cast h1)
  omega

theorem hexToRgb_rgbToHex (rgb : RGB) :
    hexToRgb (rgbToHex rgb) =
      some ⟨(clampRound255 rgb.r : ℚ), (clampRound255 rgb.g : ℚ),
            (clampRound255 rgb.b : ℚ)⟩ := by
  have hb1 := clampRound255_le rgb.r
  have hb2 := clampRound255_le rgb.g
  have hb3 := clampRound255_le rgb.b
  obtain ⟨hx1, hw1, hv1⟩ := hexDigitLower_facts (clampRound255 rgb.r / 16) (by omega)
  obtain ⟨hx2, hw2, hv2⟩ := hexDigitLower_facts (clampRound255 rgb.r % 16) (by omega)
  obtain ⟨hx3, hw3, hv3⟩ := hexDigitLower_facts (clampRound255 rgb.g / 16) (by omega)
  obtain ⟨hx4, hw4, hv4⟩ := hexDigitLower_facts (clampRound255 rgb.g % 16) (by omega)
  obtain ⟨hx5, hw5, hv5⟩ := hexDigitLower_facts (clampRound255 rgb.b / 16) (by omega)
  obtain ⟨hx6, hw6, hv6⟩ := hexDigitLower_facts (clampRound255 rgb.b % 16) (by omega)
  have hshape : rgbToHex rgb =
      ['#', hexDigitLower (clampRound255 rgb.r / 16),
            hexDigitLower (clampRound255 rgb.r % 16),
            hexDigitLower (clampRound255 rgb.g / 16),
            hexDigitLower (clampRound255 rgb.g % 16),
            hexDigitLower (clampRound255 rgb.b / 16),
            hexDigitLower (clampRound255 rgb.b % 16)] := rfl
  unfold hexToRgb normalizeHex
  rw [hshape]
  rw [jsTrim_eq_self_of_forall _ ?allnonws]
  case allnonws =>
    intro a ha
    simp only [List.mem_cons, List.not_mem_nil, or_false] at ha
    rcases ha with rfl | rfl | rfl | rfl | rfl | rfl | rfl
    · decide
    all_goals assumption
  show parseHex6 ['#',
      toUpperChar (hexDigitLower (clampRound255 rgb.r / 16)),
      toUpperChar (hexDigitLower (clampRound255 rgb.r % 16)),
      toUpperChar (hexDigitLower (clampRound255 rgb.g / 16)),
      toUpperChar (hexDigitLower (clampRound255 rgb.g % 16)),
      toUpperChar (hexDigitLower (clampRound255 rgb.b / 16)),
      toUpperChar (hexDigitLower (clampRound255 rgb.b % 16))] = _
  unfold parseHex6
  simp only [isHexDigitJs_toUpperChar, hx1, hx2, hx3, hx4, hx5, hx6,
    Bool.and_self, if_true, hv1, hv2, hv3, hv4, hv5, hv6]
  simp only [Option.some.injEq, RGB.mk.injEq]
  refine ⟨?_, ?_, ?_⟩ <;>
    · norm_cast
      omega

theorem isSome_ite_some {α : Type} (b : Bool) (x : α) :
    (if b = true then some x else none).isSome = b := by
  cases b <;> simp

theorem parseHex6_cons7 (c1 c2 c3 c4 c5 c6 : Char) :
    parseHex6 ['#', c1, c2, c3, c4, c5, c6] =
      if (isHexDigitJs c1 && isHexDigitJs c2 && isHexDigitJs c3 &&
          isHexDigitJs c4 && isHexDigitJs c5 && isHexDigitJs c6) = true then
        some ⟨((16 * hexDigitVal c1 + hexDigitVal c2 : ℕ) : ℚ),
              ((16 * hexDigitVal c3 + hexDigitVal c4 : ℕ) : ℚ),
              ((16 * hexDigitVal c5 + hexDigitVal c6 : ℕ) : ℚ)⟩
      else none := rfl

theorem parse_withHash_core (rest : Str) :
    (parseHex6 (jsToUpper (expandShorthand ('#' :: rest)))).isSome =
      ((rest.length = 3 || rest.length = 6) && rest.all isHexDigitJs) := by
  rcases rest with _ | ⟨a, _ | ⟨b, _ | ⟨c, _ | ⟨d, _ | ⟨e, _ | ⟨f, _ | ⟨g, t⟩⟩⟩⟩⟩⟩⟩
  · rfl
  · rfl
  · rfl
  · -- rest = [a, b, c]: the shorthand branch
    have hexp : expandShorthand ['#', a, b, c] =
        if isHexDigitJs a && isHexDigitJs b && isHexDigitJs c then
          ['#', a, a, b, b, c, c]
        else ['#', a, b, c] := rfl
    rw [hexp]
    by_cases hx : (isHexDigitJs a && isHexDigitJs b && isHexDigitJs c) = true
    · rw [if_pos hx]
      obtain ⟨hab, hc⟩ := Bool.and_eq_true_iff.mp hx
      obtain ⟨ha, hb⟩ := Bool.and_eq_true_iff.mp hab
      show (parseHex6 ['#', toUpperChar a, toUpperChar a, toUpperChar b,
        toUpperChar b, toUpperChar c, toUpperChar c]).isSome = _
      rw [parseHex6_cons7, isSome_ite_some]
      simp [isHexDigitJs_toUpperChar, ha, hb, hc]
    · rw [if_neg hx]
      have hL : (parseHex6 (jsToUpper ['#', a, b, c])).isSome = false := rfl
      rw [hL]
      symm
      rw [Bool.eq_false_iff]
      intro hcon
      simp only [List.all_cons, List.all_nil, Bool.and_true,
        Bool.and_eq_true] at hcon
      exact hx (by simp [hcon.2.1, hcon.2.2])
  · rfl
  · rfl
  · -- rest = [a, b, c, d, e, f]: the full 6-digit form
    show (parseHex6 ['#', toUpperChar a, toUpperChar b, toUpperChar c,
      toUpperChar d, toUpperChar e, toUpperChar f]).isSome = _
    rw [parseHex6_cons7, isSome_ite_some]
    simp only [isHexDigitJs_toUpperChar]
    rw [Bool.eq_iff_iff]
    simp only [Bool.and_eq_true, Bool.or_eq_true, decide_eq_true_eq,
      List.all_cons, List.all_nil, Bool.and_true, List.length_cons,
      List.length_nil]
    constructor
    · intro h
      refine ⟨Or.inr (by simp), by tauto⟩
    · intro h
      tauto
  · -- rest has length ≥ 7
    have hL : (parseHex6 (jsToUpper (expandShorthand
        ('#' :: a :: b :: c :: d :: e :: f :: g :: t)))).isSome = false := rfl
    rw [hL]
    symm
    rw [Bool.eq_false_iff]
    intro hcon
    simp only [Bool.and_eq_true, Bool.or_eq_true, decide_eq_true_eq,
      List.length_cons] at hcon
    omega

/-- C8: `hexToRgb` succeeds exactly on strings that, after trimming
surrounding whitespace, consist of an optional `#` followed by 3 or 6 hex
digits in either case; every other input (wrong length, non-hex content,
the empty string, a bare `#`) throws the invalid-color-format error. -/
theorem c8_hexToRgb_domain (s : Str) :
    (hexToRgb s).isSome = specHexGrammarOK s := by
  unfold hexToRgb normalizeHex specHexGrammarOK withHash
  dsimp only
  by_cases ht : (jsTrim s).head? = some '#'
  · rw [if_pos ht, if_pos ht]
    obtain ⟨t', heq⟩ : ∃ t', jsTrim s = '#' :: t' := by
      rcases hcase : jsTrim s with _ | ⟨a, l⟩
      · rw [hcase] at ht
        simp at ht
      · rw [hcase] at ht
        simp only [List.head?_cons, Option.some.injEq] at ht
        exact ⟨l, by rw [ht]⟩
    rw [heq]
    simpa using parse_withHash_core t'
  · rw [if_neg ht, if_neg ht]
    exact parse_withHash_core (jsTrim s)

theorem jsTrim_eq_self_of_schema (s : Str) (h : hexColorSchemaOK s = true) :
    jsTrim s = s := by
  unfold hexColorSchemaOK at h
  by_cases hh : s.head? = some '#'
  · rw [if_pos hh] at h
    obtain ⟨t', rfl⟩ : ∃ t', s = '#' :: t' := by
      rcases hcase : s with _ | ⟨a, l⟩
      · rw [hcase] at hh
        simp at hh
      · rw [hcase] at hh
        simp only [List.head?_cons, Option.some.injEq] at hh
        exact ⟨l, by rw [hh]⟩
    simp only [List.tail_cons] at h
    obtain ⟨-, hall⟩ := Bool.and_eq_true_iff.mp h
    refine jsTrim_eq_self_of_forall _ (fun a ha => ?_)
    rcases List.mem_cons.mp ha with rfl | hmem
    · decide
    · exact not_ws_of_isHexDigitJs _ (List.all_eq_true.mp hall _ hmem)
  · rw [if_neg hh] at h
    obtain ⟨-, hall⟩ := Bool.and_eq_true_iff.mp h
    exact jsTrim_eq_self_of_forall _
      (fun a ha => not_ws_of_isHexDigitJs _ (List.all_eq_true.mp hall _ ha))

/-- C10: every hex string that `hexToRgb` accepts only thanks to
trimming (it has surrounding whitespace) is rejected by `hexToOklch`,
whose `HexColorSchema` regex does not trim; in particular
`" #ff0000"` parses in `hexToRgb` but throws in `hexToOklch`. -/
theorem c10_hexToOklch_rejects_whitespace :
    (∀ s : Str, (hexToRgb s).isSome = true → jsTrim s ≠ s →
      hexToOklch s = none) ∧
    hexToRgb " #ff0000".data = some ⟨255, 0, 0⟩ ∧
    hexToOklch " #ff0000".data = none := by
  refine ⟨?_, ?_, ?_⟩
  · intro s _ hne
    unfold hexToOklch
    rw [if_neg (fun hOK => hne (jsTrim_eq_self_of_schema s hOK))]
  · simp [hexToRgb, normalizeHex, jsTrim, withHash, expandShorthand,
      jsToUpper, toUpperChar, parseHex6, isHexDigitJs, hexDigitVal,
      isJsWhitespace]
  · unfold hexToOklch
    rw [if_neg (by decide)]

/-- Witness for C10's general statement at the input `" #ff0000"`. -/
theorem c10_hexToOklch_rejects_whitespace_witness :
    (hexToRgb " #ff0000".data).isSome = true ∧
    jsTrim " #ff0000".data ≠ " #ff0000".data ∧
    hexToOklch " #ff0000".data = none := by
  refine ⟨by decide, by decide, ?_⟩
  exact c10_hexToOklch_rejects_whitespace.1 _ (by decide) (by decide)

theorem expandShorthand_no_match (u : Str)
    (h : ∀ a b c : Char, u ≠ ['#', a, b, c]) : expandShorthand u = u := by
  unfold expandShorthand
  split
  · next a b c => exact absurd rfl (h a b c)
  · rfl

theorem jsToUpper_withHash (t : Str) :
    jsToUpper (withHash t) = withHash (jsToUpper t) := by
  unfold withHash
  by_cases ht : t.head? = some '#'
  · rw [if_pos ht, if_pos ?_]
    obtain ⟨t', rfl⟩ : ∃ t', t = '#' :: t' := by
      rcases t with _ | ⟨a, l⟩
      · simp at ht
      · simp only [List.head?_cons, Option.some.injEq] at ht
        exact ⟨l, by rw [ht]⟩
    simp [jsToUpper, toUpperChar_hash]
  · rw [if_neg ht, if_neg ?_]
    · simp [jsToUpper, toUpperChar_hash]
    · intro hcon
      rcases t with _ | ⟨a, l⟩
      · simp [jsToUpper] at hcon
      · simp only [jsToUpper, List.map_cons, List.head?_cons,
          Option.some.injEq] at hcon
        exact ht (by simp [(toUpperChar_eq_hash_iff a).mp hcon])

theorem jsToUpper_expandShorthand (u : Str) :
    jsToUpper (expandShorthand u) = expandShorthand (jsToUpper u) := by
  rcases u with _ | ⟨x, _ | ⟨a, _ | ⟨b, _ | ⟨c, _ | ⟨d, t⟩⟩⟩⟩⟩
  · rfl
  · simp [expandShorthand_no_match, jsToUpper]
  · simp [expandShorthand_no_match, jsToUpper]
  · rw [expandShorthand_no_match _ (by intro p q r hcon; simp at hcon),
      expandShorthand_no_match _ (by intro p q r hcon; simp [jsToUpper] at hcon)]
  case cons.cons.cons.cons.cons =>
    rw [expandShorthand_no_match _ (by intro p q r hcon; simp at hcon),
      expandShorthand_no_match _ (by intro p q r hcon; simp [jsToUpper] at hcon)]
  case cons.cons.cons.cons.nil =>
    by_cases hx : x = '#'
    · subst hx
      have hL : expandShorthand ['#', a, b, c] =
          if (isHexDigitJs a && isHexDigitJs b && isHexDigitJs c) = true then
            ['#', a, a, b, b, c, c]
          else ['#', a, b, c] := rfl
      have hR : expandShorthand ['#', toUpperChar a, toUpperChar b, toUpperChar c] =
          if (isHexDigitJs (toUpperChar a) && isHexDigitJs (toUpperChar b) &&
              isHexDigitJs (toUpperChar c)) = true then
            ['#', toUpperChar a, toUpperChar a, toUpperChar b, toUpperChar b,
             toUpperChar c, toUpperChar c]
          else ['#', toUpperChar a, toUpperChar b, toUpperChar c] := rfl
      have hmap : jsToUpper ['#', a, b, c] =
          ['#', toUpperChar a, toUpperChar b, toUpperChar c] := by
        simp [jsToUpper, toUpperChar_hash]
      rw [hmap, hL, hR]
      simp only [isHexDigitJs_toUpperChar]
      split_ifs
      · simp [jsToUpper, toUpperChar_hash]
      · simp [jsToUpper, toUpperChar_hash]
    · rw [expandShorthand_no_match _ (fun p q r hcon => hx (by injection hcon)),
        expandShorthand_no_match _ ?_]
      intro p q r hcon
      simp only [jsToUpper, List.map_cons, List.map_nil] at hcon
      injection hcon with h1 _
      exact hx ((toUpperChar_eq_hash_iff x).mp h1)

theorem normalizeHex_eq_of_key (s : Str) :
    normalizeHex s = expandShorthand (withHash (luminanceKey s)) := by
  unfold normalizeHex luminanceKey
  rw [jsToUpper_expandShorthand, jsToUpper_withHash]

theorem hexToRgb_key_determined (s1 s2 : Str)
    (h : luminanceKey s1 = luminanceKey s2) : hexToRgb s1 = hexToRgb s2 := by
  unfold hexToRgb
  rw [normalizeHex_eq_of_key, normalizeHex_eq_of_key, h]

theorem mem_cacheSet (m : LuminanceCache) (k : Str) (v : ℚ)
    (e : Str × ℚ) (he : e ∈ cacheSet m k v) : e ∈ m ∨ e = (k, v) := by
  unfold cacheSet at he
  split at he
  · rcases List.mem_map.mp he with ⟨e', he', rfl⟩
    by_cases hb : (e'.1 == k) = true
    · right
      simp [hb]
    · left
      simpa [hb] using he'
  · rcases List.mem_append.mp he with he | he
    · exact Or.inl he
    · exact Or.inr (by simpa using he)

/-- C9: the luminance memo cache is observationally pure.  For every
cache state reachable by any interleaving of `getRelativeLuminance` and
`clearLuminanceCache` calls starting from the empty cache, a
`getRelativeLuminance` call returns exactly the value it would compute
on a fresh (empty) cache, for every input string. -/
theorem c9_luminance_cache_pure (P : GammaPow) (m : LuminanceCache)
    (hm : CacheReachable P m) (hex : Str) :
    (getRelativeLuminanceWithCache P m hex).1 = getRelativeLuminance P hex ∧
    (getRelativeLuminanceWithCache P m hex).1 =
      (getRelativeLuminanceWithCache P clearLuminanceCache hex).1 := by
  have hcons : ∀ mc : LuminanceCache, CacheReachable P mc →
      ∀ e ∈ mc, ∀ s : Str, luminanceKey s = e.1 →
        getRelativeLuminance P s = some e.2 := by
    intro mc hmc
    induction hmc with
    | empty => simp
    | clear m' _ _ => simp [clearLuminanceCache]
    | lum m' hex' _ ih =>
        intro e he s hs
        unfold getRelativeLuminanceWithCache at he
        dsimp only at he
        cases hget : cacheGet m' (luminanceKey hex') with
        | some v =>
            rw [hget] at he
            exact ih e he s hs
        | none =>
            rw [hget] at he
            cases hrgb : hexToRgb hex' with
            | none =>
                rw [hrgb] at he
                exact ih e he s hs
            | some rgb =>
                rw [hrgb] at he
                rcases mem_cacheSet _ _ _ _ he with he' | rfl
                · exact ih e he' s hs
                · unfold getRelativeLuminance
                  rw [hexToRgb_key_determined s hex' hs, hrgb]
                  rfl
  have main : ∀ mc : LuminanceCache, CacheReachable P mc →
      (getRelativeLuminanceWithCache P mc hex).1 = getRelativeLuminance P hex := by
    intro mc hmc
    unfold getRelativeLuminanceWithCache
    dsimp only
    cases hget : cacheGet mc (luminanceKey hex) with
    | none =>
        cases hrgb : hexToRgb hex with
        | none => simp [getRelativeLuminance, hrgb]
        | some rgb => simp [getRelativeLuminance, hrgb]
    | some v =>
        obtain ⟨e, hfind, hv⟩ : ∃ e, (mc.find? (fun e => e.1 == luminanceKey hex))
            = some e ∧ e.2 = v := by
          unfold cacheGet at hget
          cases hf : mc.find? (fun e => e.1 == luminanceKey hex) with
          | none => rw [hf] at hget; simp at hget
          | some e =>
              rw [hf] at hget
              exact ⟨e, rfl, by simpa using hget⟩
        have hkey : e.1 = luminanceKey hex := by
          have := List.find?_some hfind
          simpa using this
        have hmem := List.mem_of_find?_eq_some hfind
        have := hcons mc hmc e hmem hex hkey.symm
        rw [this, hv]
  exact ⟨main m hm, by rw [main m hm, main clearLuminanceCache CacheReachable.empty]⟩

/-- Witness for C9 at the empty (freshly cleared) cache and the input
`"#ffffff"`, with the admissible gamma model `pow24Sq`. -/
theorem c9_luminance_cache_pure_witness :
    (getRelativeLuminanceWithCache pow24Sq [] "#ffffff".data).1 =
      getRelativeLuminance pow24Sq "#ffffff".data :=
  (c9_luminance_cache_pure pow24Sq [] CacheReachable.empty "#ffffff".data).1

theorem hexDigitVal_le (c : Char) (h : isHexDigitJs c = true) :
    hexDigitVal c ≤ 15 := by
  simp only [isHexDigitJs, Bool.or_eq_true, Bool.and_eq_true,
    decide_eq_true_eq] at h
  unfold hexDigitVal
  split_ifs <;> omega

theorem parseHex6_channels (s : Str) (rgb : RGB) (h : parseHex6 s = some rgb) :
    (0 ≤ rgb.r ∧ rgb.r ≤ 255) ∧ (0 ≤ rgb.g ∧ rgb.g ≤ 255) ∧
    (0 ≤ rgb.b ∧ rgb.b ≤ 255) := by
  unfold parseHex6 at h
  split at h
  · next c1 c2 c3 c4 c5 c6 =>
      split at h
      · next hall =>
          simp only [Bool.and_eq_true] at hall
          obtain ⟨⟨⟨⟨⟨h1, h2⟩, h3⟩, h4⟩, h5⟩, h6⟩ := hall
          have v1 := hexDigitVal_le _ h1
          have v2 := hexDigitVal_le _ h2
          have v3 := hexDigitVal_le _ h3
          have v4 := hexDigitVal_le _ h4
          have v5 := hexDigitVal_le _ h5
          have v6 := hexDigitVal_le _ h6
          obtain rfl : rgb = _ := (Option.some.injEq _ _ ▸ h).symm
          refine ⟨⟨?_, ?_⟩, ⟨?_, ?_⟩, ⟨?_, ?_⟩⟩ <;>
            · dsimp only
              first
              | positivity
              | (exact_mod_cast by omega)
      · exact absurd h (by simp)
  · exact absurd h (by simp)

theorem linearizeChannel_mem (P : GammaPow) (c : ℚ) (h0 : 0 ≤ c) (h1 : c ≤ 1) :
    0 ≤ linearizeChannel P c ∧ linearizeChannel P c ≤ 1 := by
  unfold linearizeChannel
  split_ifs with h
  · constructor
    · positivity
    · rw [div_le_one (by norm_num)]
      linarith
  · exact P.f_range _ (div_nonneg (by linarith) (by norm_num))
      (by rw [div_le_one (by norm_num)]; linarith)

theorem lumRGB_mem (P : GammaPow) (rgb : RGB)
    (hr : 0 ≤ rgb.r ∧ rgb.r ≤ 255) (hg : 0 ≤ rgb.g ∧ rgb.g ≤ 255)
    (hb : 0 ≤ rgb.b ∧ rgb.b ≤ 255) :
    0 ≤ lumRGB P rgb ∧ lumRGB P rgb ≤ 1 := by
  have h255 : (0 : ℚ) < 255 := by norm_num
  have hR := linearizeChannel_mem P (rgb.r / 255)
    (div_nonneg hr.1 (le_of_lt h255)) ((div_le_one h255).mpr hr.2)
  have hG := linearizeChannel_mem P (rgb.g / 255)
    (div_nonneg hg.1 (le_of_lt h255)) ((div_le_one h255).mpr hg.2)
  have hB := linearizeChannel_mem P (rgb.b / 255)
    (div_nonneg hb.1 (le_of_lt h255)) ((div_le_one h255).mpr hb.2)
  unfold lumRGB
  constructor <;> nlinarith [hR.1, hR.2, hG.1, hG.2, hB.1, hB.2]

theorem getRelativeLuminance_mem (P : GammaPow) (s : Str) (q : ℚ)
    (h : getRelativeLuminance P s = some q) : 0 ≤ q ∧ q ≤ 1 := by
  unfold getRelativeLuminance hexToRgb at h
  cases hp : parseHex6 (normalizeHex s) with
  | none => rw [hp] at h; simp at h
  | some rgb =>
      rw [hp] at h
      obtain ⟨hr, hg, hb⟩ := parseHex6_channels _ _ hp
      obtain rfl : lumRGB P rgb = q := by simpa using h
      exact lumRGB_mem P rgb hr hg hb

theorem lum_hslToHex (P : GammaPow) (hsl : HSL) :
    ∃ lv, getRelativeLuminance P (hslToHex hsl) = some lv ∧
      0 ≤ lv ∧ lv ≤ 1 := by
  unfold getRelativeLuminance hslToHex
  rw [hexToRgb_rgbToHex]
  refine ⟨_, rfl, lumRGB_mem P _ ?_ ?_ ?_⟩ <;>
    · dsimp only
      exact ⟨by positivity, by exact_mod_cast clampRound255_le _⟩

theorem lum_white (P : GammaPow) :
    getRelativeLuminance P "#ffffff".data = some 1 := by
  have h : hexToRgb "#ffffff".data = some ⟨255, 255, 255⟩ := by
    simp [hexToRgb, normalizeHex, jsTrim, withHash, expandShorthand,
      jsToUpper, toUpperChar, parseHex6, isHexDigitJs, hexDigitVal,
      isJsWhitespace]
  unfold getRelativeLuminance
  rw [h]
  have harg : (((255 : ℚ)/255) + 0.055) / 1.055 = 1 := by norm_num
  have hlin : linearizeChannel P ((255 : ℚ)/255) = 1 := by
    unfold linearizeChannel
    rw [if_neg (by norm_num), harg, P.f_one]
  rw [Option.map_some']
  refine congrArg some ?_
  unfold lumRGB
  dsimp only
  rw [hlin]
  norm_num

theorem lum_black (P : GammaPow) :
    getRelativeLuminance P "#000000".data = some 0 := by
  have h : hexToRgb "#000000".data = some ⟨0, 0, 0⟩ := by
    simp [hexToRgb, normalizeHex, jsTrim, withHash, expandShorthand,
      jsToUpper, toUpperChar, parseHex6, isHexDigitJs, hexDigitVal,
      isJsWhitespace]
  unfold getRelativeLuminance
  rw [h]
  have hlin : linearizeChannel P ((0 : ℚ)/255) = 0 := by
    unfold linearizeChannel
    rw [if_pos (by norm_num)]
    norm_num
  rw [Option.map_some']
  refine congrArg some ?_
  unfold lumRGB
  dsimp only
  rw [hlin]
  norm_num

theorem contrastOfLums_le_extremes (lv bgLum : ℚ)
    (h0 : 0 ≤ lv) (h1 : lv ≤ 1) (hb0 : 0 ≤ bgLum) (hb1 : bgLum ≤ 1) :
    contrastOfLums lv bgLum ≤
      max (contrastOfLums 1 bgLum) (contrastOfLums 0 bgLum) := by
  unfold contrastOfLums
  simp only [jsMax_eq, jsMin_eq]
  rcases le_total lv bgLum with hc | hc
  · refine le_trans ?_ (le_max_right _ _)
    rw [max_eq_right hc, min_eq_left hc, max_eq_right hb0, min_eq_left hb0]
    exact (div_le_div_left (by linarith) (by linarith) (by norm_num)).mpr
      (by linarith)
  · refine le_trans ?_ (le_max_left _ _)
    rw [max_eq_left hc, min_eq_right hc, max_eq_left hb1, min_eq_right hb1]
    exact (div_le_div_right (by linarith)).mpr (by linarith)

theorem calculateContrast_hslToHex (P : GammaPow) (bg : Str) (bgLum : ℚ)
    (hbg : getRelativeLuminance P bg = some bgLum) (hsl : HSL) :
    ∃ lv, 0 ≤ lv ∧ lv ≤ 1 ∧
      calculateContrast P (hslToHex hsl) bg = some (contrastOfLums lv bgLum) := by
  obtain ⟨lv, hlv, h0, h1⟩ := lum_hslToHex P hsl
  refine ⟨lv, h0, h1, ?_⟩
  unfold calculateContrast
  rw [hlv, hbg]

theorem phase1Loop_succ_eq (P : GammaPow) (bg : Str) (fgHsl : HSL) (sl : Bool)
    (tr : ℚ) (n : ℕ) (st : SearchState) :
    phase1Loop P bg fgHsl sl tr (n+1) st =
      if st.high - st.low > 0.5 ∧ st.iterations < 20 then
        match calculateContrast P
            (hslToHex ⟨fgHsl.h, fgHsl.s, (st.low + st.high) / 2⟩) bg with
        | none => none
        | some ratio =>
            if tr ≤ ratio then
              phase1Loop P bg fgHsl sl tr n
                (if sl then ⟨st.low, (st.low + st.high) / 2, st.iterations + 1,
                    some ⟨(st.low + st.high) / 2, ratio⟩⟩
                 else ⟨(st.low + st.high) / 2, st.high, st.iterations + 1,
                    some ⟨(st.low + st.high) / 2, ratio⟩⟩)
            else
              phase1Loop P bg fgHsl sl tr n
                (if sl then ⟨(st.low + st.high) / 2, st.high,
                    st.iterations + 1, st.best⟩
                 else ⟨st.low, (st.low + st.high) / 2,
                    st.iterations + 1, st.best⟩)
      else some st := rfl

theorem phase2Loop_succ_eq (P : GammaPow) (bg : Str) (fgHue maxedL tr : ℚ)
    (n : ℕ) (st : SearchState) :
    phase2Loop P bg fgHue maxedL tr (n+1) st =
      if st.high - st.low > 1 ∧ st.iterations < 40 then
        match calculateContrast P
            (hslToHex ⟨fgHue, (st.low + st.high) / 2, maxedL⟩) bg with
        | none => none
        | some ratio =>
            if tr ≤ ratio then
              phase2Loop P bg fgHue maxedL tr n
                ⟨(st.low + st.high) / 2, st.high, st.iterations + 1,
                 some ⟨(st.low + st.high) / 2, ratio⟩⟩
            else
              phase2Loop P bg fgHue maxedL tr n
                ⟨st.low, (st.low + st.high) / 2, st.iterations + 1, st.best⟩
      else some st := rfl

theorem phase1Loop_sound (P : GammaPow) (bg : Str) (fgHsl : HSL) (sl : Bool)
    (tr bgLum : ℚ) (hbg : getRelativeLuminance P bg = some bgLum) :
    ∀ (fuel : ℕ) (st : SearchState),
      st.iterations + fuel = 20 →
      (∀ b ∈ st.best, tr ≤ b.ratio) →
      ∃ st', phase1Loop P bg fgHsl sl tr fuel st = some st' ∧
        (∀ b ∈ st'.best, tr ≤ b.ratio) ∧
        st'.iterations ≤ 20 ∧
        (st'.high - st'.low ≤ 0.5 ∨ st'.iterations = 20) := by
  intro fuel
  induction fuel with
  | zero =>
      intro st hfu hbest
      exact ⟨st, rfl, hbest, by omega, Or.inr (by omega)⟩
  | succ n ih =>
      intro st hfu hbest
      rw [phase1Loop_succ_eq]
      by_cases hcond : st.high - st.low > 0.5 ∧ st.iterations < 20
      · rw [if_pos hcond]
        obtain ⟨lv, -, -, hcc⟩ := calculateContrast_hslToHex P bg bgLum hbg
          ⟨fgHsl.h, fgHsl.s, (st.low + st.high) / 2⟩
        rw [hcc]
        dsimp only
        split_ifs with hge hsl hsl
        · exact ih _ (by dsimp only; omega) (fun b hb => by
            simp only [Option.mem_def, Option.some.injEq] at hb
            subst hb
            exact hge)
        · exact ih _ (by dsimp only; omega) (fun b hb => by
            simp only [Option.mem_def, Option.some.injEq] at hb
            subst hb
            exact hge)
        · exact ih _ (by dsimp only; omega) (fun b hb => hbest b hb)
        · exact ih _ (by dsimp only; omega) (fun b hb => hbest b hb)
      · rw [if_neg hcond]
        rcases not_and_or.mp hcond with hA | hB
        · exact ⟨st, rfl, hbest, by omega, Or.inl (by linarith [not_lt.mp hA])⟩
        · exact absurd (by omega) hB

theorem phase2Loop_sound (P : GammaPow) (bg : Str) (fgHue maxedL : ℚ)
    (tr bgLum : ℚ) (hbg : getRelativeLuminance P bg = some bgLum) :
    ∀ (fuel : ℕ) (st : SearchState),
      (∀ b ∈ st.best, tr ≤ b.ratio) →
      ∃ st', phase2Loop P bg fgHue maxedL tr fuel st = some st' ∧
        (∀ b ∈ st'.best, tr ≤ b.ratio) ∧
        st'.iterations ≤ max st.iterations 40 := by
  intro fuel
  induction fuel with
  | zero =>
      intro st hbest
      exact ⟨st, rfl, hbest, le_max_left _ _⟩
  | succ n ih =>
      intro st hbest
      rw [phase2Loop_succ_eq]
      by_cases hcond : st.high - st.low > 1 ∧ st.iterations < 40
      · rw [if_pos hcond]
        obtain ⟨lv, -, -, hcc⟩ := calculateContrast_hslToHex P bg bgLum hbg
          ⟨fgHue, (st.low + st.high) / 2, maxedL⟩
        rw [hcc]
        dsimp only
        split_ifs with hge
        · obtain ⟨st', hst', hbest', hit'⟩ := ih
            ⟨(st.low + st.high)/2, st.high, st.iterations + 1,
             some ⟨(st.low + st.high)/2, contrastOfLums lv bgLum⟩⟩
            (fun b hb => by
              simp only [Option.mem_def, Option.some.injEq] at hb
              subst hb
              exact hge)
          refine ⟨st', hst', hbest', ?_⟩
          dsimp only at hit'
          omega
        · obtain ⟨st', hst', hbest', hit'⟩ := ih
            ⟨st.low, (st.low + st.high)/2, st.iterations + 1, st.best⟩
            (fun b hb => hbest b hb)
          refine ⟨st', hst', hbest', ?_⟩
          dsimp only at hit'
          omega
      · rw [if_neg hcond]
        exact ⟨st, rfl, hbest, le_max_left _ _⟩

theorem calculateContrast_inv (P : GammaPow) (fg bg : Str) (r : ℚ)
    (h : calculateContrast P fg bg = some r) :
    ∃ fgLum bgLum, getRelativeLuminance P fg = some fgLum ∧
      getRelativeLuminance P bg = some bgLum ∧
      r = contrastOfLums fgLum bgLum := by
  unfold calculateContrast at h
  cases hf : getRelativeLuminance P fg with
  | none => rw [hf] at h; exact absurd h (by simp)
  | some l1 =>
      cases hb : getRelativeLuminance P bg with
      | none => rw [hf, hb] at h; exact absurd h (by simp)
      | some l2 =>
          rw [hf, hb] at h
          exact ⟨l1, l2, rfl, rfl, by simpa using h.symm⟩

theorem hexToHsl_some_of_lum (P : GammaPow) (fg : Str) (fgLum : ℚ)
    (h : getRelativeLuminance P fg = some fgLum) :
    ∃ hslv, hexToHsl fg = some hslv := by
  unfold getRelativeLuminance at h
  cases hr : hexToRgb fg with
  | none => rw [hr] at h; exact absurd h (by simp)
  | some rgbv => exact ⟨rgbToHsl rgbv, by unfold hexToHsl; rw [hr]; rfl⟩

theorem adjust_contrast_some (P : GammaPow) (fg bg : Str) (lvl : WCAGLevel)
    (sz : TextSize) (res : AdjustmentResult)
    (h : adjustColorForContrast P fg bg lvl sz = some res) :
    ∃ r0, calculateContrast P fg bg = some r0 := by
  unfold adjustColorForContrast at h
  cases hc : calculateContrast P fg bg with
  | none => rw [hc] at h; exact absurd h (by simp)
  | some r0 => exact ⟨r0, rfl⟩

theorem adjust_spec (P : GammaPow) (fg bg : Str) (lvl : WCAGLevel)
    (sz : TextSize) (r0 : ℚ) (h : calculateContrast P fg bg = some r0) :
    ∃ res, adjustColorForContrast P fg bg lvl sz = some res ∧
      res.iterations ≤ 40 ∧
      (requirementFor lvl sz ≤ res.ratio ∨
        ∃ bgLum, getRelativeLuminance P bg = some bgLum ∧
          0 ≤ bgLum ∧ bgLum ≤ 1 ∧
          res.ratio = max (contrastOfLums 1 bgLum) (contrastOfLums 0 bgLum)) := by
  obtain ⟨fgLum, bgLum, hfgl, hbgl, hr0⟩ := calculateContrast_inv P fg bg r0 h
  obtain ⟨bgb0, bgb1⟩ := getRelativeLuminance_mem P bg bgLum hbgl
  obtain ⟨hslv, hhsl⟩ := hexToHsl_some_of_lum P fg fgLum hfgl
  unfold adjustColorForContrast
  rw [h]
  dsimp only
  by_cases hinit : requirementFor lvl sz ≤ r0
  · rw [if_pos hinit]
    exact ⟨_, rfl, Nat.zero_le 40, Or.inl hinit⟩
  · rw [if_neg hinit]
    rw [hhsl, hfgl, hbgl]
    dsimp only
    obtain ⟨st1, hst1, hbest1, hit1, -⟩ :=
      phase1Loop_sound P bg hslv (decide (fgLum < bgLum))
        (requirementFor lvl sz) bgLum hbgl 20
        ⟨if fgLum < bgLum then hslv.l else 0,
         if fgLum < bgLum then 100 else hslv.l, 0, none⟩
        rfl (by simp)
    rw [hst1]
    dsimp only
    cases hb1 : st1.best with
    | some best =>
        dsimp only
        exact ⟨_, rfl, by dsimp only; omega, Or.inl (hbest1 best hb1)⟩
    | none =>
        dsimp only
        obtain ⟨st2, hst2, hbest2, hit2⟩ :=
          phase2Loop_sound P bg hslv.h (if fgLum < bgLum then (98 : ℚ) else 2)
            (requirementFor lvl sz) bgLum hbgl 40
            ⟨0, hslv.s, st1.iterations, none⟩ (by simp)
        rw [max_eq_right (show st1.iterations ≤ 40 by omega)] at hit2
        rw [hst2]
        dsimp only
        cases hb2 : st2.best with
        | some best =>
            dsimp only
            exact ⟨_, rfl, by dsimp only; omega, Or.inl (hbest2 best hb2)⟩
        | none =>
            dsimp only
            have hw : calculateContrast P "#ffffff".data bg =
                some (contrastOfLums 1 bgLum) := by
              unfold calculateContrast
              rw [lum_white P, hbgl]
            have hk : calculateContrast P "#000000".data bg =
                some (contrastOfLums 0 bgLum) := by
              unfold calculateContrast
              rw [lum_black P, hbgl]
            rw [hw, hk]
            dsimp only
            by_cases hcmp : contrastOfLums 0 bgLum < contrastOfLums 1 bgLum
            · rw [if_pos hcmp]
              exact ⟨_, rfl, by dsimp only; omega,
                Or.inr ⟨bgLum, rfl, bgb0, bgb1,
                  (max_eq_left (le_of_lt hcmp)).symm⟩⟩
            · rw [if_neg hcmp]
              exact ⟨_, rfl, by dsimp only; omega,
                Or.inr ⟨bgLum, rfl, bgb0, bgb1,
                  (max_eq_right (not_lt.mp hcmp)).symm⟩⟩

theorem phase1Loop_iterations (P : GammaPow) (bg : Str) (fgHsl : HSL)
    (sl : Bool) (tr : ℚ) :
    ∀ (fuel : ℕ) (st st' : SearchState), st.iterations + fuel = 20 →
      phase1Loop P bg fgHsl sl tr fuel st = some st' →
      st'.iterations ≤ 20 ∧ (st'.high - st'.low ≤ 0.5 ∨ st'.iterations = 20) := by
  intro fuel
  induction fuel with
  | zero =>
      intro st st' hfu h
      obtain rfl : st = st' := by
        have h' : some st = some st' := h
        simpa using h'
      exact ⟨by omega, Or.inr (by omega)⟩
  | succ n ih =>
      intro st st' hfu h
      rw [phase1Loop_succ_eq] at h
      by_cases hcond : st.high - st.low > 0.5 ∧ st.iterations < 20
      · rw [if_pos hcond] at h
        cases hcc : calculateContrast P
            (hslToHex ⟨fgHsl.h, fgHsl.s, (st.low + st.high) / 2⟩) bg with
        | none =>
            rw [hcc] at h
            exact absurd h (by simp)
        | some ratio =>
            rw [hcc] at h
            dsimp only at h
            split_ifs at h <;> exact ih _ _ (by dsimp only; omega) h
      · rw [if_neg hcond] at h
        obtain rfl : st = st' := by simpa using h
        rcases not_and_or.mp hcond with hA | hB
        · exact ⟨by omega, Or.inl (by linarith [not_lt.mp hA])⟩
        · exact absurd (by omega) hB

theorem phase2Loop_iterations (P : GammaPow) (bg : Str) (fgHue maxedL tr : ℚ) :
    ∀ (fuel : ℕ) (st st' : SearchState),
      phase2Loop P bg fgHue maxedL tr fuel st = some st' →
      st'.iterations ≤ max st.iterations 40 := by
  intro fuel
  induction fuel with
  | zero =>
      intro st st' h
      obtain rfl : st = st' := by
        have h' : some st = some st' := h
        simpa using h'
      exact le_max_left _ _
  | succ n ih =>
      intro st st' h
      rw [phase2Loop_succ_eq] at h
      by_cases hcond : st.high - st.low > 1 ∧ st.iterations < 40
      · rw [if_pos hcond] at h
        cases hcc : calculateContrast P
            (hslToHex ⟨fgHue, (st.low + st.high) / 2, maxedL⟩) bg with
        | none =>
            rw [hcc] at h
            exact absurd h (by simp)
        | some ratio =>
            rw [hcc] at h
            dsimp only at h
            split_ifs at h <;>
              · have := ih _ _ h
                dsimp only at this
                omega
      · rw [if_neg hcond] at h
        obtain rfl : st = st' := by simpa using h
        exact le_max_left _ _

theorem contrast_black_white (P : GammaPow) :
    calculateContrast P "#000000".data "#ffffff".data = some 21 := by
  unfold calculateContrast
  rw [lum_black P, lum_white P]
  refine congrArg some ?_
  norm_num [contrastOfLums, jsMax, jsMin]

/-- C1: whenever the initial contrast of the pair already meets the WCAG
threshold for the requested (level, size), `adjustColorForContrast`
returns immediately with `adjusted` the exact original foreground string,
`ratio` the initial contrast, `iterations = 0` and
`strategy = "lightness"`. -/
theorem c1_already_compliant_early_return (P : GammaPow) (fg bg : Str)
    (lvl : WCAGLevel) (sz : TextSize) (r : ℚ)
    (h : calculateContrast P fg bg = some r)
    (hge : requirementFor lvl sz ≤ r) :
    adjustColorForContrast P fg bg lvl sz =
      some ⟨fg, fg, r, 0, .lightness⟩ := by
  unfold adjustColorForContrast
  rw [h]
  dsimp only
  rw [if_pos hge]

/-- Witness for C1 at foreground `"#000000"`, background `"#ffffff"`,
level AA, normal text (initial contrast 21 ≥ 4.5). -/
theorem c1_already_compliant_early_return_witness :
    calculateContrast pow24Sq "#000000".data "#ffffff".data = some 21 ∧
    requirementFor .AA .normal ≤ 21 ∧
    adjustColorForContrast pow24Sq "#000000".data "#ffffff".data .AA .normal =
      some ⟨"#000000".data, "#000000".data, 21, 0, .lightness⟩ := by
  have hc := contrast_black_white pow24Sq
  have hge : requirementFor WCAGLevel.AA TextSize.normal ≤ (21 : ℚ) := by
    norm_num [requirementFor, WCAG_REQUIREMENTS]
  exact ⟨hc, hge,
    c1_already_compliant_early_return pow24Sq _ _ .AA .normal 21 hc hge⟩

/-- C2: if some lightness value l in [0,100] makes the foreground's HSL
(with only the l channel replaced) meet the target contrast against the
background, then `adjustColorForContrast` returns a result whose ratio
meets the target. -/
theorem c2_reachable_lightness_meets_target (P : GammaPow) (fg bg : Str)
    (lvl : WCAGLevel) (sz : TextSize) (fgHsl : HSL) (l rwit : ℚ)
    (hhsl : hexToHsl fg = some fgHsl)
    (hsome : (calculateContrast P fg bg).isSome = true)
    (hl0 : 0 ≤ l) (hl1 : l ≤ 100)
    (hwit : calculateContrast P (hslToHex ⟨fgHsl.h, fgHsl.s, l⟩) bg = some rwit)
    (hge : requirementFor lvl sz ≤ rwit) :
    ∃ res, adjustColorForContrast P fg bg lvl sz = some res ∧
      requirementFor lvl sz ≤ res.ratio := by
  obtain ⟨r0, hr0⟩ := Option.isSome_iff_exists.mp hsome
  obtain ⟨res, hres, -, hca⟩ := adjust_spec P fg bg lvl sz r0 hr0
  refine ⟨res, hres, ?_⟩
  rcases hca with hca | ⟨bgLum, hbgl, hb0, hb1, hratio⟩
  · exact hca
  · obtain ⟨lv, hlv0, hlv1, hcc⟩ :=
      calculateContrast_hslToHex P bg bgLum hbgl ⟨fgHsl.h, fgHsl.s, l⟩
    rw [hwit] at hcc
    have hrw : rwit = contrastOfLums lv bgLum := by simpa using hcc
    calc requirementFor lvl sz ≤ rwit := hge
      _ = contrastOfLums lv bgLum := hrw
      _ ≤ max (contrastOfLums 1 bgLum) (contrastOfLums 0 bgLum) :=
          contrastOfLums_le_extremes lv bgLum hlv0 hlv1 hb0 hb1
      _ = res.ratio := hratio.symm

/-- Witness for C2 at foreground `"#000000"`, background `"#ffffff"`,
level AA, normal text, with the lightness witness l = 0 (black itself). -/
theorem c2_reachable_lightness_meets_target_witness :
    hexToHsl "#000000".data = some ⟨0, 0, 0⟩ ∧
    (calculateContrast pow24Sq "#000000".data "#ffffff".data).isSome = true ∧
    calculateContrast pow24Sq (hslToHex ⟨0, 0, 0⟩) "#ffffff".data = some 21 ∧
    ∃ res, adjustColorForContrast pow24Sq "#000000".data "#ffffff".data
        .AA .normal = some res ∧ requirementFor .AA .normal ≤ res.ratio := by
  have hhsl : hexToHsl "#000000".data = some ⟨0, 0, 0⟩ := by
    simp [hexToHsl, hexToRgb, normalizeHex, jsTrim, withHash, expandShorthand,
      jsToUpper, toUpperChar, parseHex6, isHexDigitJs, hexDigitVal,
      isJsWhitespace, rgbToHsl, jsMax, jsMin, jsRound]
    norm_num
  have hbb : hslToHex ⟨0, 0, 0⟩ = "#000000".data := by
    simp [hslToHex, hslToRgb, rgbToHex, toHexPair, jsRound, jsMax, jsMin,
      hexDigitLower]
    norm_num
  have hwit : calculateContrast pow24Sq (hslToHex ⟨0, 0, 0⟩) "#ffffff".data =
      some 21 := by
    rw [hbb]
    exact contrast_black_white pow24Sq
  have hsome : (calculateContrast pow24Sq "#000000".data "#ffffff".data).isSome
      = true := by
    rw [contrast_black_white pow24Sq]
    rfl
  exact ⟨hhsl, hsome, hwit,
    c2_reachable_lightness_meets_target pow24Sq _ _ .AA .normal ⟨0, 0, 0⟩ 0 21
      hhsl hsome (le_refl 0) (by norm_num) hwit
      (by norm_num [requirementFor, WCAG_REQUIREMENTS])⟩

/-- C3: for every valid input the reported iteration count is < 50
(indeed ≤ 40); the Phase-1 lightness search performs at most 20
iterations and stops once its interval is ≤ 0.5 (or the cap is hit); and
Phase 2 entered at any cumulative count ≤ 40 stays ≤ 40. -/
theorem c3_iterations_bounded :
    (∀ (P : GammaPow) (fg bg : Str) (lvl : WCAGLevel) (sz : TextSize)
        (res : AdjustmentResult),
      adjustColorForContrast P fg bg lvl sz = some res →
      res.iterations ≤ 40 ∧ res.iterations < 50) ∧
    (∀ (P : GammaPow) (bg : Str) (fgHsl : HSL) (sl : Bool)
        (tr low high : ℚ) (st' : SearchState),
      phase1Loop P bg fgHsl sl tr 20 ⟨low, high, 0, none⟩ = some st' →
      st'.iterations ≤ 20 ∧ (st'.high - st'.low ≤ 0.5 ∨ st'.iterations = 20)) ∧
    (∀ (P : GammaPow) (bg : Str) (fgHue maxedL tr : ℚ) (st st' : SearchState),
      st.iterations ≤ 40 →
      phase2Loop P bg fgHue maxedL tr 40 st = some st' →
      st'.iterations ≤ 40) := by
  refine ⟨?_, ?_, ?_⟩
  · intro P fg bg lvl sz res hres
    obtain ⟨r0, hr0⟩ := adjust_contrast_some P fg bg lvl sz res hres
    obtain ⟨res', hres', hit, -⟩ := adjust_spec P fg bg lvl sz r0 hr0
    rw [hres] at hres'
    obtain rfl : res = res' := by simpa using hres'
    exact ⟨hit, by omega⟩
  · intro P bg fgHsl sl tr low high st' hloop
    exact phase1Loop_iterations P bg fgHsl sl tr 20 ⟨low, high, 0, none⟩ st'
      rfl hloop
  · intro P bg fgHue maxedL tr st st' hst hloop
    have h := phase2Loop_iterations P bg fgHue maxedL tr 40 st st' hloop
    calc st'.iterations ≤ max st.iterations 40 := h
      _ = 40 := max_eq_right hst

/-- Witness for C3's first conjunct at foreground `"#000000"`,
background `"#ffffff"`, level AA, normal text. -/
theorem c3_iterations_bounded_witness :
    ∃ res, adjustColorForContrast pow24Sq "#000000".data "#ffffff".data
        .AA .normal = some res ∧ res.iterations < 50 := by
  have hc := contrast_black_white pow24Sq
  have hres : adjustColorForContrast pow24Sq "#000000".data "#ffffff".data
      .AA .normal = some ⟨"#000000".data, "#000000".data, 21, 0, .lightness⟩ := by
    unfold adjustColorForContrast
    rw [hc]
    dsimp only
    rw [if_pos (by norm_num [requirementFor, WCAG_REQUIREMENTS])]
  exact ⟨_, hres,
    (c3_iterations_bounded.1 pow24Sq _ _ .AA .normal _ hres).2⟩

/-- C6: `meetsWCAG(ratio, level, size)` returns true exactly when `ratio`
is ≥ the fixed threshold of the (level, size) pair — 4.5 for (AA, normal),
3.0 for (AA, large), 7.0 for (AAA, normal), 4.5 for (AAA, large) — with a
non-strict comparison, so each boundary value passes while a value just
below it fails. -/
theorem c6_meetsWCAG_thresholds :
    (∀ r : ℚ, meetsWCAG r .AA .normal = decide ((4.5 : ℚ) ≤ r)) ∧
    (∀ r : ℚ, meetsWCAG r .AA .large = decide ((3.0 : ℚ) ≤ r)) ∧
    (∀ r : ℚ, meetsWCAG r .AAA .normal = decide ((7.0 : ℚ) ≤ r)) ∧
    (∀ r : ℚ, meetsWCAG r .AAA .large = decide ((4.5 : ℚ) ≤ r)) ∧
    meetsWCAG 4.5 .AA .normal = true ∧ meetsWCAG 4.499 .AA .normal = false ∧
    meetsWCAG 3.0 .AA .large = true ∧ meetsWCAG 2.999 .AA .large = false ∧
    meetsWCAG 7.0 .AAA .normal = true ∧ meetsWCAG 6.999 .AAA .normal = false ∧
    meetsWCAG 4.5 .AAA .large = true ∧ meetsWCAG 4.499 .AAA .large = false := by
  refine ⟨fun r => rfl, fun r => rfl, fun r => rfl, fun r => rfl,
    ?_, ?_, ?_, ?_, ?_, ?_, ?_, ?_⟩ <;>
    norm_num [meetsWCAG, requirementFor, WCAG_REQUIREMENTS]

/-- C7 counterexample: for the integer-channel input rgb(255, 0, 1),
`rgbToHsl` returns h = 360, which is not in [0,360) and is not wrapped
to 0, refuting the claimed range. -/
theorem c7_counterexample_h_360 :
    rgbToHsl ⟨255, 0, 1⟩ = ⟨360, 100, 50⟩ ∧
    ¬ ((rgbToHsl ⟨255, 0, 1⟩).h < 360) := by
  have h : rgbToHsl ⟨255, 0, 1⟩ = ⟨360, 100, 50⟩ := by
    simp [rgbToHsl, jsMax, jsMin, jsRound]
    norm_num
  exact ⟨h, by rw [h]; norm_num⟩

theorem rgbToHsl_eq (rgb : RGB) :
    rgbToHsl rgb =
      ⟨(jsRound (hslHueFrac (rgb.r/255) (rgb.g/255) (rgb.b/255) * 360) : ℤ),
       (jsRound (hslSatFrac (rgb.r/255) (rgb.g/255) (rgb.b/255) * 100) : ℤ),
       (jsRound (hslLightFrac (rgb.r/255) (rgb.g/255) (rgb.b/255) * 100) : ℤ)⟩ :=
  rfl

theorem hslHueFrac_bounds (r g b : ℚ)
    (hr0 : 0 ≤ r) (hr1 : r ≤ 1) (hg0 : 0 ≤ g) (hg1 : g ≤ 1)
    (hb0 : 0 ≤ b) (hb1 : b ≤ 1) :
    0 ≤ hslHueFrac r g b ∧ hslHueFrac r g b ≤ 1 := by
  unfold hslHueFrac
  simp only [jsMax_eq, jsMin_eq]
  set maxC := max r (max g b) with hmaxC
  set minC := min r (min g b) with hminC
  have hrM : r ≤ maxC := le_max_left _ _
  have hgM : g ≤ maxC := le_trans (le_max_left _ _) (le_max_right _ _)
  have hbM : b ≤ maxC := le_trans (le_max_right _ _) (le_max_right _ _)
  have hmr : minC ≤ r := min_le_left _ _
  have hmg : minC ≤ g := le_trans (min_le_right _ _) (min_le_left _ _)
  have hmb : minC ≤ b := le_trans (min_le_right _ _) (min_le_right _ _)
  split_ifs with hd hR hgb hG
  all_goals try exact ⟨le_refl 0, by norm_num⟩
  · -- maxC = r, g < b
    have hdpos : 0 < maxC - minC := lt_of_le_of_ne (by linarith) (Ne.symm hd)
    have h1 : -(1 : ℚ) ≤ (g - b) / (maxC - minC) :=
      (le_div_iff₀ hdpos).mpr (by linarith)
    have h2 : (g - b) / (maxC - minC) ≤ 0 :=
      (div_le_iff₀ hdpos).mpr (by linarith)
    constructor <;> linarith
  · -- maxC = r, g ≥ b
    have hdpos : 0 < maxC - minC := lt_of_le_of_ne (by linarith) (Ne.symm hd)
    have h1 : 0 ≤ (g - b) / (maxC - minC) :=
      div_nonneg (by linarith) (le_of_lt hdpos)
    have h2 : (g - b) / (maxC - minC) ≤ 1 :=
      (div_le_one hdpos).mpr (by linarith)
    constructor <;> linarith
  · -- maxC = g
    have hdpos : 0 < maxC - minC := lt_of_le_of_ne (by linarith) (Ne.symm hd)
    have h1 : -(1 : ℚ) ≤ (b - r) / (maxC - minC) :=
      (le_div_iff hdpos).mpr (by linarith)
    have h2 : (b - r) / (maxC - minC) ≤ 1 :=
      (div_le_one hdpos).mpr (by linarith)
    constructor <;> linarith
  · -- neither r nor g is the max
    have hdpos : 0 < maxC - minC := lt_of_le_of_ne (by linarith) (Ne.symm hd)
    have h1 : -(1 : ℚ) ≤ (r - g) / (maxC - minC) :=
      (le_div_iff hdpos).mpr (by linarith)
    have h2 : (r - g) / (maxC - minC) ≤ 1 :=
      (div_le_one hdpos).mpr (by linarith)
    constructor <;> linarith

theorem hslSatFrac_bounds (r g b : ℚ)
    (hr0 : 0 ≤ r) (hr1 : r ≤ 1) (hg0 : 0 ≤ g) (hg1 : g ≤ 1)
    (hb0 : 0 ≤ b) (hb1 : b ≤ 1) :
    0 ≤ hslSatFrac r g b ∧ hslSatFrac r g b ≤ 1 := by
  unfold hslSatFrac
  simp only [jsMax_eq, jsMin_eq]
  set maxC := max r (max g b) with hmaxC
  set minC := min r (min g b) with hminC
  have hM1 : maxC ≤ 1 := max_le hr1 (max_le hg1 hb1)
  have hm0 : 0 ≤ minC := le_min hr0 (le_min hg0 hb0)
  have hm1 : minC ≤ 1 := le_trans (min_le_left _ _) hr1
  have hmM : minC ≤ maxC := le_trans (min_le_left _ _) (le_max_left _ _)
  split_ifs with hd hl
  · -- l > 1/2 branch: denominator 2 - maxC - minC
    have hdpos : 0 < maxC - minC := lt_of_le_of_ne (by linarith) (Ne.symm hd)
    have hden : 0 < 2 - maxC - minC := by
      rcases lt_or_eq_of_le hm1 with h | h
      · linarith
      · exfalso
        have : maxC = 1 := le_antisymm hM1 (by rw [← h]; exact hmM)
        rw [this, ← h] at hdpos
        linarith
    exact ⟨le_of_lt (div_pos hdpos hden),
      (div_le_one hden).mpr (by linarith)⟩
  · -- l ≤ 1/2 branch: denominator maxC + minC
    have hdpos : 0 < maxC - minC := lt_of_le_of_ne (by linarith) (Ne.symm hd)
    have hden : 0 < maxC + minC := by linarith
    exact ⟨le_of_lt (div_pos hdpos hden),
      (div_le_one hden).mpr (by linarith)⟩
  · exact ⟨le_refl 0, by norm_num⟩

/-- C7 (amended): for every RGB input with channels in [0,255],
`rgbToHsl` returns integers with h in [0,360] (the value 360 itself is
reachable and is not wrapped to 0, see the counterexample), and s and l
in [0,100]. -/
theorem c7_rgbToHsl_ranges (rgb : RGB)
    (hr0 : 0 ≤ rgb.r) (hr1 : rgb.r ≤ 255)
    (hg0 : 0 ≤ rgb.g) (hg1 : rgb.g ≤ 255)
    (hb0 : 0 ≤ rgb.b) (hb1 : rgb.b ≤ 255) :
    (∃ z : ℤ, (rgbToHsl rgb).h = (z : ℚ)) ∧
      0 ≤ (rgbToHsl rgb).h ∧ (rgbToHsl rgb).h ≤ 360 ∧
    (∃ z : ℤ, (rgbToHsl rgb).s = (z : ℚ)) ∧
      0 ≤ (rgbToHsl rgb).s ∧ (rgbToHsl rgb).s ≤ 100 ∧
    (∃ z : ℤ, (rgbToHsl rgb).l = (z : ℚ)) ∧
      0 ≤ (rgbToHsl rgb).l ∧ (rgbToHsl rgb).l ≤ 100 := by
  have h255 : (0 : ℚ) < 255 := by norm_num
  have hr01 : 0 ≤ rgb.r/255 ∧ rgb.r/255 ≤ 1 :=
    ⟨div_nonneg hr0 (le_of_lt h255), (div_le_one h255).mpr hr1⟩
  have hg01 : 0 ≤ rgb.g/255 ∧ rgb.g/255 ≤ 1 :=
    ⟨div_nonneg hg0 (le_of_lt h255), (div_le_one h255).mpr hg1⟩
  have hb01 : 0 ≤ rgb.b/255 ∧ rgb.b/255 ≤ 1 :=
    ⟨div_nonneg hb0 (le_of_lt h255), (div_le_one h255).mpr hb1⟩
  have hH := hslHueFrac_bounds (rgb.r/255) (rgb.g/255) (rgb.b/255)
    hr01.1 hr01.2 hg01.1 hg01.2 hb01.1 hb01.2
  have hS := hslSatFrac_bounds (rgb.r/255) (rgb.g/255) (rgb.b/255)
    hr01.1 hr01.2 hg01.1 hg01.2 hb01.1 hb01.2
  have hL : 0 ≤ hslLightFrac (rgb.r/255) (rgb.g/255) (rgb.b/255) ∧
      hslLightFrac (rgb.r/255) (rgb.g/255) (rgb.b/255) ≤ 1 := by
    unfold hslLightFrac
    simp only [jsMax_eq, jsMin_eq]
    have hM1 : max (rgb.r/255) (max (rgb.g/255) (rgb.b/255)) ≤ 1 :=
      max_le hr01.2 (max_le hg01.2 hb01.2)
    have hm0 : 0 ≤ min (rgb.r/255) (min (rgb.g/255) (rgb.b/255)) :=
      le_min hr01.1 (le_min hg01.1 hb01.1)
    have hmM : min (rgb.r/255) (min (rgb.g/255) (rgb.b/255)) ≤
        max (rgb.r/255) (max (rgb.g/255) (rgb.b/255)) :=
      le_trans (min_le_left _ _) (le_max_left _ _)
    constructor <;> [linarith; linarith]
  have hRoundH := jsRound_mem (hslHueFrac (rgb.r/255) (rgb.g/255) (rgb.b/255) * 360)
    360 (by nlinarith [hH.1]) (by nlinarith [hH.2])
  have hRoundS := jsRound_mem (hslSatFrac (rgb.r/255) (rgb.g/255) (rgb.b/255) * 100)
    100 (by nlinarith [hS.1]) (by nlinarith [hS.2])
  have hRoundL := jsRound_mem (hslLightFrac (rgb.r/255) (rgb.g/255) (rgb.b/255) * 100)
    100 (by nlinarith [hL.1]) (by nlinarith [hL.2])
  rw [rgbToHsl_eq]
  dsimp only
  refine ⟨⟨_, rfl⟩, ?_, ?_, ⟨_, rfl⟩, ?_, ?_, ⟨_, rfl⟩, ?_, ?_⟩
  · exact_mod_cast hRoundH.1
  · exact_mod_cast hRoundH.2
  · exact_mod_cast hRoundS.1
  · exact_mod_cast hRoundS.2
  · exact_mod_cast hRoundL.1
  · exact_mod_cast hRoundL.2

/-- Witness for C7's amended theorem at rgb(255, 0, 0). -/
theorem c7_rgbToHsl_ranges_witness :
    0 ≤ (rgbToHsl ⟨255, 0, 0⟩).h ∧ (rgbToHsl ⟨255, 0, 0⟩).h ≤ 360 ∧
    0 ≤ (rgbToHsl ⟨255, 0, 0⟩).s ∧ (rgbToHsl ⟨255, 0, 0⟩).s ≤ 100 := by
  have H := c7_rgbToHsl_ranges ⟨255, 0, 0⟩ (by norm_num) (by norm_num)
    (by norm_num) (by norm_num) (by norm_num) (by norm_num)
  exact ⟨H.2.1, H.2.2.1, H.2.2.2.2.1, H.2.2.2.2.2.1⟩

/-- C5: for valid OKLCH endpoints and t in [0,1], `interpolateOklch`
succeeds; the hue delta it scales is the raw delta of the effective hues
adjusted by ±360 exactly when it leaves (-180, 180), so it lies in
[-180, 180] and is congruent to the raw delta mod 360; the returned hue
equals start-hue + delta·t up to a multiple of 360 and lies in [0, 360);
and interpolating hue 350 → 10 at t = 0.5 yields hue exactly 0
(not 180). -/
theorem c5_interpolateOklch_shortest_path :
    (∀ (c1 c2 : OKLCH) (t : ℝ),
      OklchSchemaOK c1 → OklchSchemaOK c2 → 0 ≤ t → t ≤ 1 →
      ∃ res : OKLCH,
        interpolateOklch c1 c2 t = some res ∧
        0 ≤ res.h ∧ res.h < 360 ∧
        |shortestHueDelta (effectiveHue1 c1 c2) (effectiveHue2 c1 c2)| ≤ 180 ∧
        (∃ k : ℤ, shortestHueDelta (effectiveHue1 c1 c2) (effectiveHue2 c1 c2) -
            (effectiveHue2 c1 c2 - effectiveHue1 c1 c2) = 360 * (k : ℝ)) ∧
        (∃ k : ℤ, res.h = effectiveHue1 c1 c2 +
            shortestHueDelta (effectiveHue1 c1 c2) (effectiveHue2 c1 c2) * t +
            360 * (k : ℝ))) ∧
    interpolateOklch ⟨0.5, 0.1, 350⟩ ⟨0.5, 0.1, 10⟩ 0.5 = some ⟨0.5, 0.1, 0⟩ := by
  constructor
  · intro c1 c2 t h1ok h2ok ht0 ht1
    obtain ⟨-, -, -, hh10, hh11⟩ := id h1ok
    obtain ⟨-, -, -, hh20, hh21⟩ := id h2ok
    have hfac : interpolationFactorOK t := ⟨ht0, ht1⟩
    unfold interpolateOklch
    rw [if_pos (⟨h1ok, h2ok⟩ : OklchSchemaOK c1 ∧ OklchSchemaOK c2)]
    dsimp only
    rw [if_pos hfac]
    unfold shortestHueDelta effectiveHue2 effectiveHue1
    set h1 := if c1.c < 0.0001 then c2.h else c1.h with hh1def
    set h2 := if c2.c < 0.0001 then h1 else c2.h with hh2def
    have hb1 : 0 ≤ h1 ∧ h1 ≤ 360 := by
      rw [hh1def]; split_ifs
      exacts [⟨hh20, hh21⟩, ⟨hh10, hh11⟩]
    have hb2 : 0 ≤ h2 ∧ h2 ≤ 360 := by
      rw [hh2def]; split_ifs
      exacts [hb1, ⟨hh20, hh21⟩]
    set d := if h2 - h1 > 180 then h2 - h1 - 360
      else if h2 - h1 < -180 then h2 - h1 + 360 else h2 - h1 with hddef
    have hdb : -180 ≤ d ∧ d ≤ 180 := by
      rw [hddef]; split_ifs <;> constructor <;> linarith [hb1.1, hb1.2, hb2.1, hb2.2]
    have hdt : -180 ≤ d * t ∧ d * t ≤ 180 := by
      constructor
      · nlinarith [mul_nonneg (by linarith [hdb.1] : (0:ℝ) ≤ d + 180) ht0]
      · nlinarith [mul_nonneg (by linarith [hdb.2] : (0:ℝ) ≤ 180 - d) ht0]
    set hRaw := h1 + d * t with hrawdef
    have hrawb : -180 ≤ hRaw ∧ hRaw ≤ 540 := by
      rw [hrawdef]; constructor <;> linarith [hb1.1, hb1.2, hdt.1, hdt.2]
    set hPos := if hRaw < 0 then hRaw + 360 else hRaw with hposdef
    refine ⟨_, rfl, ?_, ?_, ?_, ?_, ?_⟩
    · -- 0 ≤ h
      dsimp only
      rw [hposdef]; split_ifs <;> linarith [hrawb.1, hrawb.2]
    · -- h < 360
      dsimp only
      rw [hposdef]; split_ifs <;> linarith [hrawb.1, hrawb.2]
    · exact abs_le.mpr hdb
    · rw [hddef]; split_ifs
      · exact ⟨-1, by push_cast; ring⟩
      · exact ⟨1, by push_cast; ring⟩
      · exact ⟨0, by push_cast; ring⟩
    · dsimp only
      rw [hposdef]
      split_ifs with hA hB hB
      · exact ⟨0, by push_cast; linarith⟩
      · exact ⟨1, by push_cast; ring⟩
      · exact ⟨-1, by push_cast; ring⟩
      · exact ⟨0, by push_cast; ring⟩
  · norm_num [interpolateOklch, OklchSchemaOK, interpolationFactorOK]

/-- Witness for C5 at the endpoints (l=0.5, c=0.1, h=350) and
(l=0.5, c=0.1, h=10) with t = 0.5. -/
theorem c5_interpolateOklch_witness :
    OklchSchemaOK ⟨0.5, 0.1, 350⟩ ∧ OklchSchemaOK ⟨0.5, 0.1, 10⟩ ∧
    ∃ res : OKLCH,
      interpolateOklch ⟨0.5, 0.1, 350⟩ ⟨0.5, 0.1, 10⟩ 0.5 = some res ∧
      0 ≤ res.h ∧ res.h < 360 := by
  have hs1 : OklchSchemaOK ⟨0.5, 0.1, 350⟩ := by norm_num [OklchSchemaOK]
  have hs2 : OklchSchemaOK ⟨0.5, 0.1, 10⟩ := by norm_num [OklchSchemaOK]
  obtain ⟨res, h1, h2, h3, -⟩ :=
    c5_interpolateOklch_shortest_path.1 ⟨0.5, 0.1, 350⟩ ⟨0.5, 0.1, 10⟩ 0.5
      hs1 hs2 (by norm_num) (by norm_num)
  exact ⟨hs1, hs2, res, h1, h2, h3⟩

theorem rgbToOklab_eq (rgb : RGB) :
    rgbToOklab rgb =
      ⟨0.2104542553 * mathCbrt (lmsFwdL rgb) + 0.793617785 * mathCbrt (lmsFwdM rgb) -
         0.0040720468 * mathCbrt (lmsFwdS rgb),
       1.9779984951 * mathCbrt (lmsFwdL rgb) - 2.428592205 * mathCbrt (lmsFwdM rgb) +
         0.4505937099 * mathCbrt (lmsFwdS rgb),
       0.0259040371 * mathCbrt (lmsFwdL rgb) + 0.7827717662 * mathCbrt (lmsFwdM rgb) -
         0.808675766 * mathCbrt (lmsFwdS rgb)⟩ := rfl

theorem oklabToRgb_eq (lab : OKLAB) :
    oklabToRgb lab =
      ⟨((jsRoundR (max 0 (min 1 (linearToSrgb (rLinOf lab))) * 255) : ℤ) : ℚ),
       ((jsRoundR (max 0 (min 1 (linearToSrgb (gLinOf lab))) * 255) : ℤ) : ℚ),
       ((jsRoundR (max 0 (min 1 (linearToSrgb (bLinOf lab))) * 255) : ℤ) : ℚ)⟩ := rfl

theorem srgbToLinear_of_gt (c : ℝ) (h : 0.04045 < c) :
    srgbToLinear c = ((c + 0.055) / 1.055) ^ (2.4 : ℝ) := by
  have hpos : 0 < c := lt_trans (by norm_num) h
  unfold srgbToLinear
  rw [abs_of_pos hpos, if_neg (not_le.mpr h), Real.sign_of_pos hpos, one_mul]

theorem linearToSrgb_of_gt (c : ℝ) (h : 0.0031308 < c) :
    linearToSrgb c = 1.055 * c ^ ((1 : ℝ)/2.4) - 0.055 := by
  have hpos : 0 < c := lt_trans (by norm_num) h
  unfold linearToSrgb
  rw [abs_of_pos hpos, if_neg (not_le.mpr h), Real.sign_of_pos hpos, one_mul]

theorem linR_eval (rgb : RGB) (n : ℕ) (hn : rgb.r = (n : ℚ))
    (hgt : 0.04045 < (n : ℝ)/255) :
    linR rgb = (((n : ℝ)/255 + 0.055) / 1.055) ^ (2.4 : ℝ) := by
  unfold linR
  rw [hn, show (((n : ℚ) : ℝ)) = (n : ℝ) by push_cast; ring]
  exact srgbToLinear_of_gt _ hgt

theorem linG_eval (rgb : RGB) (n : ℕ) (hn : rgb.g = (n : ℚ))
    (hgt : 0.04045 < (n : ℝ)/255) :
    linG rgb = (((n : ℝ)/255 + 0.055) / 1.055) ^ (2.4 : ℝ) := by
  unfold linG
  rw [hn, show (((n : ℚ) : ℝ)) = (n : ℝ) by push_cast; ring]
  exact srgbToLinear_of_gt _ hgt

theorem linB_eval (rgb : RGB) (n : ℕ) (hn : rgb.b = (n : ℚ))
    (hgt : 0.04045 < (n : ℝ)/255) :
    linB rgb = (((n : ℝ)/255 + 0.055) / 1.055) ^ (2.4 : ℝ) := by
  unfold linB
  rw [hn, show (((n : ℚ) : ℝ)) = (n : ℝ) by push_cast; ring]
  exact srgbToLinear_of_gt _ hgt

theorem rpow24_interval (q a b : ℝ) (hq : 0 ≤ q) (ha : 0 ≤ a) (hb : 0 ≤ b)
    (h1 : a ^ 5 ≤ q ^ 12) (h2 : q ^ 12 ≤ b ^ 5) :
    a ≤ q ^ (2.4 : ℝ) ∧ q ^ (2.4 : ℝ) ≤ b := by
  have key : (q ^ (2.4 : ℝ)) ^ (5 : ℕ) = q ^ (12 : ℕ) := by
    rw [← Real.rpow_natCast (q ^ (2.4 : ℝ)) 5, ← Real.rpow_mul hq,
      show ((2.4 : ℝ) * (5 : ℕ)) = ((12 : ℕ) : ℝ) by norm_num, Real.rpow_natCast]
  constructor
  · exact (pow_le_pow_iff_left ha (Real.rpow_nonneg hq _)
      (by norm_num : (5 : ℕ) ≠ 0)).mp (by rw [key]; exact h1)
  · exact (pow_le_pow_iff_left (Real.rpow_nonneg hq _) hb
      (by norm_num : (5 : ℕ) ≠ 0)).mp (by rw [key]; exact h2)

theorem rpow_inv24_interval (u u1 u2 a b : ℝ) (hu1 : 0 ≤ u1) (ha : 0 ≤ a)
    (hb : 0 ≤ b) (hl : u1 ≤ u) (hr : u ≤ u2)
    (h1 : a ^ 12 ≤ u1 ^ 5) (h2 : u2 ^ 5 ≤ b ^ 12) :
    a ≤ u ^ ((1 : ℝ)/2.4) ∧ u ^ ((1 : ℝ)/2.4) ≤ b := by
  have hu : 0 ≤ u := le_trans hu1 hl
  have key : (u ^ ((1 : ℝ)/2.4)) ^ (12 : ℕ) = u ^ (5 : ℕ) := by
    rw [← Real.rpow_natCast (u ^ ((1 : ℝ)/2.4)) 12, ← Real.rpow_mul hu,
      show ((1 : ℝ)/2.4 * (12 : ℕ)) = ((5 : ℕ) : ℝ) by norm_num, Real.rpow_natCast]
  have hq1 : u1 ^ 5 ≤ u ^ 5 := pow_le_pow_left hu1 hl 5
  have hq2 : u ^ 5 ≤ u2 ^ 5 := pow_le_pow_left hu hr 5
  constructor
  · exact (pow_le_pow_iff_left ha (Real.rpow_nonneg hu _)
      (by norm_num : (12 : ℕ) ≠ 0)).mp (by rw [key]; exact le_trans h1 hq1)
  · exact (pow_le_pow_iff_left (Real.rpow_nonneg hu _) hb
      (by norm_num : (12 : ℕ) ≠ 0)).mp (by rw [key]; exact le_trans hq2 h2)

theorem mathCbrt_interval (x x1 x2 a b : ℝ) (hx1 : 0 < x1) (ha : 0 ≤ a)
    (hl : x1 ≤ x) (hr : x ≤ x2) (hA : a ^ 3 ≤ x1) (hB : x2 ≤ b ^ 3) :
    a ≤ mathCbrt x ∧ mathCbrt x ≤ b := by
  have hx : 0 < x := lt_of_lt_of_le hx1 hl
  have hb : 0 ≤ b := by
    by_contra hcon
    push_neg at hcon
    have h3 : b ^ 3 ≤ 0 := Odd.pow_nonpos (by decide) hcon.le
    nlinarith
  have hcb : mathCbrt x = x ^ ((1 : ℝ)/3) := by
    unfold mathCbrt
    rw [Real.sign_of_pos hx, abs_of_pos hx, one_mul]
  have key : (x ^ ((1 : ℝ)/3)) ^ (3 : ℕ) = x := by
    rw [← Real.rpow_natCast (x ^ ((1 : ℝ)/3)) 3, ← Real.rpow_mul hx.le,
      show ((1 : ℝ)/3 * (3 : ℕ)) = (1 : ℝ) by norm_num, Real.rpow_one]
  rw [hcb]
  constructor
  · exact (pow_le_pow_iff_left ha (Real.rpow_nonneg hx.le _)
      (by norm_num : (3 : ℕ) ≠ 0)).mp (by rw [key]; exact le_trans hA hl)
  · exact (pow_le_pow_iff_left (Real.rpow_nonneg hx.le _) hb
      (by norm_num : (3 : ℕ) ≠ 0)).mp (by rw [key]; exact le_trans hr hB)

theorem cube_interval (y p q : ℝ) (hp : 0 ≤ p) (h1 : p ≤ y) (h2 : y ≤ q) :
    p * p * p ≤ y * y * y ∧ y * y * y ≤ q * q * q := by
  have hy : 0 ≤ y := le_trans hp h1
  have hq : 0 ≤ q := le_trans hy h2
  have hsq1 : p * p ≤ y * y := mul_le_mul h1 h1 hp hy
  have hsq2 : y * y ≤ q * q := mul_le_mul h2 h2 hy hq
  exact ⟨mul_le_mul hsq1 h1 hp (mul_nonneg hy hy),
    mul_le_mul hsq2 h2 hy (mul_nonneg hq hq)⟩

theorem jsRoundR_eq (v : ℝ) (N : ℤ) (h1 : (N : ℝ) ≤ v + 1/2)
    (h2 : v + 1/2 < (N : ℝ) + 1) : jsRoundR v = N := by
  unfold jsRoundR
  exact Int.floor_eq_iff.mpr ⟨h1, by push_cast; linarith⟩

theorem sqrt_sumsq_ge_abs_left (a b : ℝ) : |a| ≤ Real.sqrt (a * a + b * b) := by
  calc |a| = Real.sqrt (a ^ 2) := (Real.sqrt_sq_eq_abs a).symm
    _ ≤ Real.sqrt (a * a + b * b) := Real.sqrt_le_sqrt (by nlinarith [sq_nonneg b])

theorem sqrt_sumsq_ge_abs_right (a b : ℝ) : |b| ≤ Real.sqrt (a * a + b * b) := by
  calc |b| = Real.sqrt (b ^ 2) := (Real.sqrt_sq_eq_abs b).symm
    _ ≤ Real.sqrt (a * a + b * b) := Real.sqrt_le_sqrt (by nlinarith [sq_nonneg a])

theorem hue_wrap_bounds (x : ℝ) (hub : x ≤ 180) (hlb : -180 < x) :
    0 ≤ (if x < 0 then x + 360 else x) ∧ (if x < 0 then x + 360 else x) ≤ 360 := by
  by_cases h : x < 0
  · rw [if_pos h]
    constructor <;> linarith
  · rw [if_neg h]
    push_neg at h
    constructor <;> linarith

theorem oklabToOklch_schemaOK (lab : OKLAB) (h0 : 0 ≤ lab.l) (h1 : lab.l ≤ 1) :
    OklchSchemaOK (oklabToOklch lab) := by
  have hple : mathAtan2 lab.b lab.a ≤ Real.pi := Complex.arg_le_pi _
  have hpgt : -Real.pi < mathAtan2 lab.b lab.a := Complex.neg_pi_lt_arg _
  have hpipos : (0 : ℝ) < Real.pi := Real.pi_pos
  have hub : mathAtan2 lab.b lab.a * 180 / Real.pi ≤ 180 := by
    rw [div_le_iff₀ hpipos]
    nlinarith
  have hlb : (-180 : ℝ) < mathAtan2 lab.b lab.a * 180 / Real.pi := by
    rw [lt_div_iff₀ hpipos]
    nlinarith
  have hh := hue_wrap_bounds (mathAtan2 lab.b lab.a * 180 / Real.pi) hub hlb
  unfold oklabToOklch OklchSchemaOK
  dsimp only
  by_cases hc : Real.sqrt (lab.a * lab.a + lab.b * lab.b) < 0.0001
  · rw [if_pos hc]
    exact ⟨h0, h1, Real.sqrt_nonneg _, le_refl 0, by norm_num⟩
  · rw [if_neg hc]
    exact ⟨h0, h1, Real.sqrt_nonneg _, hh.1, hh.2⟩

theorem oklch_oklab_cancel (lab : OKLAB)
    (hc : ¬ Real.sqrt (lab.a * lab.a + lab.b * lab.b) < 0.0001) :
    oklchToOklab (oklabToOklch lab) = lab := by
  obtain ⟨ll, la, lb⟩ := lab
  dsimp only at hc ⊢
  have hz : (⟨la, lb⟩ : ℂ) ≠ 0 := by
    intro h
    apply hc
    have ha : la = 0 := congrArg Complex.re h
    have hb : lb = 0 := congrArg Complex.im h
    rw [ha, hb]
    norm_num
  have hs : Real.sqrt (la * la + lb * lb) ≠ 0 := by
    push_neg at hc
    intro h
    rw [h] at hc
    norm_num at hc
  have habs : Complex.abs ⟨la, lb⟩ = Real.sqrt (la * la + lb * lb) := by
    rw [Complex.abs_apply, Complex.normSq_mk]
  have hcos : Real.cos (Complex.arg ⟨la, lb⟩) = la / Real.sqrt (la * la + lb * lb) := by
    rw [← habs]
    exact Complex.cos_arg hz
  have hsin : Real.sin (Complex.arg ⟨la, lb⟩) = lb / Real.sqrt (la * la + lb * lb) := by
    rw [← habs]
    exact Complex.sin_arg ⟨la, lb⟩
  have e1 : Real.sqrt (la * la + lb * lb) * (la / Real.sqrt (la * la + lb * lb)) = la := by
    rw [mul_comm]
    exact div_mul_cancel₀ _ hs
  have e2 : Real.sqrt (la * la + lb * lb) * (lb / Real.sqrt (la * la + lb * lb)) = lb := by
    rw [mul_comm]
    exact div_mul_cancel₀ _ hs
  unfold oklabToOklch oklchToOklab mathAtan2
  dsimp only
  rw [if_neg hc]
  by_cases hneg : Complex.arg ⟨la, lb⟩ * 180 / Real.pi < 0
  · rw [if_pos hneg,
      show (Complex.arg ⟨la, lb⟩ * 180 / Real.pi + 360) * Real.pi / 180 =
        Complex.arg ⟨la, lb⟩ + 2 * Real.pi by
          field_simp
          ring,
      Real.cos_add_two_pi, Real.sin_add_two_pi, hcos, hsin, e1, e2]
  · rw [if_neg hneg,
      show Complex.arg ⟨la, lb⟩ * 180 / Real.pi * Real.pi / 180 =
        Complex.arg ⟨la, lb⟩ by
          field_simp,
      hcos, hsin, e1, e2]


set_option maxHeartbeats 2000000 in
theorem c4_sample_1 :
    (hexToOklch "#3b82f6".data).bind oklchToHex = some "#3b82f6".data := by
  have hrgb : hexToRgb "#3b82f6".data = some ⟨59, 130, 246⟩ := by
    simp [hexToRgb, normalizeHex, jsTrim, withHash, expandShorthand,
      jsToUpper, toUpperChar, parseHex6, isHexDigitJs, hexDigitVal,
      isJsWhitespace]
  have hxr : (0.043735029256973448 : ℝ) ≤ linR (⟨59, 130, 246⟩ : RGB) ∧
      linR (⟨59, 130, 246⟩ : RGB) ≤ 0.043735029256973449 := by
    rw [linR_eval (⟨59, 130, 246⟩ : RGB) 59 (by norm_num) (by norm_num)]
    exact rpow24_interval _ _ _ (by norm_num) (by norm_num) (by norm_num)
      (by norm_num) (by norm_num)
  have hxg : (0.223227957316808421 : ℝ) ≤ linG (⟨59, 130, 246⟩ : RGB) ∧
      linG (⟨59, 130, 246⟩ : RGB) ≤ 0.223227957316808422 := by
    rw [linG_eval (⟨59, 130, 246⟩ : RGB) 130 (by norm_num) (by norm_num)]
    exact rpow24_interval _ _ _ (by norm_num) (by norm_num) (by norm_num)
      (by norm_num) (by norm_num)
  have hxb : (0.921581856277294476 : ℝ) ≤ linB (⟨59, 130, 246⟩ : RGB) ∧
      linB (⟨59, 130, 246⟩ : RGB) ≤ 0.921581856277294477 := by
    rw [linB_eval (⟨59, 130, 246⟩ : RGB) 246 (by norm_num) (by norm_num)]
    exact rpow24_interval _ _ _ (by norm_num) (by norm_num) (by norm_num)
      (by norm_num) (by norm_num)
  have hL : (0.18516462824139314 : ℝ) ≤ lmsFwdL (⟨59, 130, 246⟩ : RGB) ∧
      lmsFwdL (⟨59, 130, 246⟩ : RGB) ≤ 0.185164628241393142 := by
    unfold lmsFwdL
    exact ⟨by linarith [hxr.1, hxg.1, hxb.1], by linarith [hxr.2, hxg.2, hxb.2]⟩
  have hM : (0.260193861314545761 : ℝ) ≤ lmsFwdM (⟨59, 130, 246⟩ : RGB) ∧
      lmsFwdM (⟨59, 130, 246⟩ : RGB) ≤ 0.260193861314545763 := by
    unfold lmsFwdM
    exact ⟨by linarith [hxr.1, hxg.1, hxb.1], by linarith [hxr.2, hxg.2, hxb.2]⟩
  have hS : (0.647326371631720708 : ℝ) ≤ lmsFwdS (⟨59, 130, 246⟩ : RGB) ∧
      lmsFwdS (⟨59, 130, 246⟩ : RGB) ≤ 0.64732637163172071 := by
    unfold lmsFwdS
    exact ⟨by linarith [hxr.1, hxg.1, hxb.1], by linarith [hxr.2, hxg.2, hxb.2]⟩
  have hcL : (0.569970890317440154 : ℝ) ≤ mathCbrt (lmsFwdL (⟨59, 130, 246⟩ : RGB)) ∧
      mathCbrt (lmsFwdL (⟨59, 130, 246⟩ : RGB)) ≤ 0.569970890317440157 :=
    mathCbrt_interval _ 0.18516462824139314 0.185164628241393142 0.569970890317440154 0.569970890317440157 (by norm_num) (by norm_num)
      hL.1 hL.2 (by norm_num) (by norm_num)
  have hcM : (0.638409021331751322 : ℝ) ≤ mathCbrt (lmsFwdM (⟨59, 130, 246⟩ : RGB)) ∧
      mathCbrt (lmsFwdM (⟨59, 130, 246⟩ : RGB)) ≤ 0.638409021331751325 :=
    mathCbrt_interval _ 0.260193861314545761 0.260193861314545763 0.638409021331751322 0.638409021331751325 (by norm_num) (by norm_num)
      hM.1 hM.2 (by norm_num) (by norm_num)
  have hcS : (0.865049780124530089 : ℝ) ≤ mathCbrt (lmsFwdS (⟨59, 130, 246⟩ : RGB)) ∧
      mathCbrt (lmsFwdS (⟨59, 130, 246⟩ : RGB)) ≤ 0.865049780124530091 :=
    mathCbrt_interval _ 0.647326371631720708 0.64732637163172071 0.865049780124530089 0.865049780124530091 (by norm_num) (by norm_num)
      hS.1 hS.2 (by norm_num) (by norm_num)
  have hll : (0.623083029508760286 : ℝ) ≤ (rgbToOklab (⟨59, 130, 246⟩ : RGB)).l ∧
      (rgbToOklab (⟨59, 130, 246⟩ : RGB)).l ≤ 0.62308302950876029 := by
    rw [rgbToOklab_eq]
    dsimp only
    exact ⟨by linarith [hcL.1, hcL.2, hcM.1, hcM.2, hcS.1, hcS.2],
      by linarith [hcL.1, hcL.2, hcM.1, hcM.2, hcS.1, hcS.2]⟩
  have hla : (-0.033247619834774905 : ℝ) ≤ (rgbToOklab (⟨59, 130, 246⟩ : RGB)).a ∧
      (rgbToOklab (⟨59, 130, 246⟩ : RGB)).a ≤ -0.03324761983477489 := by
    rw [rgbToOklab_eq]
    dsimp only
    exact ⟨by linarith [hcL.1, hcL.2, hcM.1, hcM.2, hcS.1, hcS.2],
      by linarith [hcL.1, hcL.2, hcM.1, hcM.2, hcS.1, hcS.2]⟩
  have hlb : (-0.185051689295764488 : ℝ) ≤ (rgbToOklab (⟨59, 130, 246⟩ : RGB)).b ∧
      (rgbToOklab (⟨59, 130, 246⟩ : RGB)).b ≤ -0.185051689295764483 := by
    rw [rgbToOklab_eq]
    dsimp only
    exact ⟨by linarith [hcL.1, hcL.2, hcM.1, hcM.2, hcS.1, hcS.2],
      by linarith [hcL.1, hcL.2, hcM.1, hcM.2, hcS.1, hcS.2]⟩
  have hcge : ¬ Real.sqrt ((rgbToOklab (⟨59, 130, 246⟩ : RGB)).a *
      (rgbToOklab (⟨59, 130, 246⟩ : RGB)).a +
      (rgbToOklab (⟨59, 130, 246⟩ : RGB)).b *
      (rgbToOklab (⟨59, 130, 246⟩ : RGB)).b) < 0.0001 := by
    push_neg
    have habs : (0.0001 : ℝ) ≤ |(rgbToOklab (⟨59, 130, 246⟩ : RGB)).b| := by
      rw [abs_of_neg (by linarith [hlb.1, hlb.2])]
      linarith [hlb.1, hlb.2]
    exact le_trans habs (sqrt_sumsq_ge_abs_right _ _)
  have hsch : OklchSchemaOK (oklabToOklch (rgbToOklab (⟨59, 130, 246⟩ : RGB))) :=
    oklabToOklch_schemaOK _ (by linarith [hll.1]) (by linarith [hll.2])
  have hLp : (0.569970891914867277 : ℝ) ≤ lmsL (rgbToOklab (⟨59, 130, 246⟩ : RGB)) ∧
      lmsL (rgbToOklab (⟨59, 130, 246⟩ : RGB)) ≤ 0.569970891914867289 := by
    unfold lmsL
    exact ⟨by linarith [hll.1, hll.2, hla.1, hla.2, hlb.1, hlb.2],
      by linarith [hll.1, hll.2, hla.1, hla.2, hlb.1, hlb.2]⟩
  have hMp : (0.638409015548389552 : ℝ) ≤ lmsM (rgbToOklab (⟨59, 130, 246⟩ : RGB)) ∧
      lmsM (rgbToOklab (⟨59, 130, 246⟩ : RGB)) ≤ 0.638409015548389559 := by
    unfold lmsM
    exact ⟨by linarith [hll.1, hll.2, hla.1, hla.2, hlb.1, hlb.2],
      by linarith [hll.1, hll.2, hla.1, hla.2, hlb.1, hlb.2]⟩
  have hSp : (0.86504974778197393 : ℝ) ≤ lmsS (rgbToOklab (⟨59, 130, 246⟩ : RGB)) ∧
      lmsS (rgbToOklab (⟨59, 130, 246⟩ : RGB)) ≤ 0.865049747781973943 := by
    unfold lmsS
    exact ⟨by linarith [hll.1, hll.2, hla.1, hla.2, hlb.1, hlb.2],
      by linarith [hll.1, hll.2, hla.1, hla.2, hlb.1, hlb.2]⟩
  have hLp3 := cube_interval (lmsL (rgbToOklab (⟨59, 130, 246⟩ : RGB)))
    0.569970891914867277 0.569970891914867289 (by norm_num) hLp.1 hLp.2
  have hMp3 := cube_interval (lmsM (rgbToOklab (⟨59, 130, 246⟩ : RGB)))
    0.638409015548389552 0.638409015548389559 (by norm_num) hMp.1 hMp.2
  have hSp3 := cube_interval (lmsS (rgbToOklab (⟨59, 130, 246⟩ : RGB)))
    0.86504974778197393 0.865049747781973943 (by norm_num) hSp.1 hSp.2
  have hUr : (0.043735042435512935 : ℝ) ≤ rLinOf (rgbToOklab (⟨59, 130, 246⟩ : RGB)) ∧
      rLinOf (rgbToOklab (⟨59, 130, 246⟩ : RGB)) ≤ 0.043735042435513019 := by
    unfold rLinOf
    exact ⟨by linarith [hLp3.1, hLp3.2, hMp3.1, hMp3.2, hSp3.1, hSp3.2],
      by linarith [hLp3.1, hLp3.2, hMp3.1, hMp3.2, hSp3.1, hSp3.2]⟩
  have hUg : (0.223227961566506952 : ℝ) ≤ gLinOf (rgbToOklab (⟨59, 130, 246⟩ : RGB)) ∧
      gLinOf (rgbToOklab (⟨59, 130, 246⟩ : RGB)) ≤ 0.223227961566507 := by
    unfold gLinOf
    exact ⟨by linarith [hLp3.1, hLp3.2, hMp3.1, hMp3.2, hSp3.1, hSp3.2],
      by linarith [hLp3.1, hLp3.2, hMp3.1, hMp3.2, hSp3.1, hSp3.2]⟩
  have hUb : (0.921581737287164351 : ℝ) ≤ bLinOf (rgbToOklab (⟨59, 130, 246⟩ : RGB)) ∧
      bLinOf (rgbToOklab (⟨59, 130, 246⟩ : RGB)) ≤ 0.921581737287164408 := by
    unfold bLinOf
    exact ⟨by linarith [hLp3.1, hLp3.2, hMp3.1, hMp3.2, hSp3.1, hSp3.2],
      by linarith [hLp3.1, hLp3.2, hMp3.1, hMp3.2, hSp3.1, hSp3.2]⟩
  have hchr : jsRoundR (max 0 (min 1 (linearToSrgb (rLinOf (rgbToOklab
      (⟨59, 130, 246⟩ : RGB))))) * 255) = (59 : ℤ) := by
    have hgt : (0.0031308 : ℝ) < rLinOf (rgbToOklab (⟨59, 130, 246⟩ : RGB)) := by
      linarith [hUr.1]
    have heq := linearToSrgb_of_gt _ hgt
    have ht := rpow_inv24_interval (rLinOf (rgbToOklab (⟨59, 130, 246⟩ : RGB)))
      0.043735042435512935 0.043735042435513019 0.271443208506633161 0.271443208506633379 (by norm_num) (by norm_num) (by norm_num)
      hUr.1 hUr.2 (by norm_num) (by norm_num)
    have hw1 : (0 : ℝ) ≤ linearToSrgb (rLinOf (rgbToOklab (⟨59, 130, 246⟩ : RGB))) := by
      rw [heq]
      linarith [ht.1]
    have hw2 : linearToSrgb (rLinOf (rgbToOklab (⟨59, 130, 246⟩ : RGB))) ≤ 1 := by
      rw [heq]
      linarith [ht.2]
    rw [min_eq_right hw2, max_eq_right hw1]
    refine jsRoundR_eq _ 59 ?_ ?_
    · rw [heq]
      push_cast
      linarith [ht.1]
    · rw [heq]
      push_cast
      linarith [ht.2]
  have hchg : jsRoundR (max 0 (min 1 (linearToSrgb (gLinOf (rgbToOklab
      (⟨59, 130, 246⟩ : RGB))))) * 255) = (130 : ℤ) := by
    have hgt : (0.0031308 : ℝ) < gLinOf (rgbToOklab (⟨59, 130, 246⟩ : RGB)) := by
      linarith [hUg.1]
    have heq := linearToSrgb_of_gt _ hgt
    have ht := rpow_inv24_interval (gLinOf (rgbToOklab (⟨59, 130, 246⟩ : RGB)))
      0.223227961566506952 0.223227961566507 0.535359171610249249 0.535359171610249298 (by norm_num) (by norm_num) (by norm_num)
      hUg.1 hUg.2 (by norm_num) (by norm_num)
    have hw1 : (0 : ℝ) ≤ linearToSrgb (gLinOf (rgbToOklab (⟨59, 130, 246⟩ : RGB))) := by
      rw [heq]
      linarith [ht.1]
    have hw2 : linearToSrgb (gLinOf (rgbToOklab (⟨59, 130, 246⟩ : RGB))) ≤ 1 := by
      rw [heq]
      linarith [ht.2]
    rw [min_eq_right hw2, max_eq_right hw1]
    refine jsRoundR_eq _ 130 ?_ ?_
    · rw [heq]
      push_cast
      linarith [ht.1]
    · rw [heq]
      push_cast
      linarith [ht.2]
  have hchb : jsRoundR (max 0 (min 1 (linearToSrgb (bLinOf (rgbToOklab
      (⟨59, 130, 246⟩ : RGB))))) * 255) = (246 : ℤ) := by
    have hgt : (0.0031308 : ℝ) < bLinOf (rgbToOklab (⟨59, 130, 246⟩ : RGB)) := by
      linarith [hUb.1]
    have heq := linearToSrgb_of_gt _ hgt
    have ht := rpow_inv24_interval (bLinOf (rgbToOklab (⟨59, 130, 246⟩ : RGB)))
      0.921581737287164351 0.921581737287164408 0.966545808051986833 0.966545808051986859 (by norm_num) (by norm_num) (by norm_num)
      hUb.1 hUb.2 (by norm_num) (by norm_num)
    have hw1 : (0 : ℝ) ≤ linearToSrgb (bLinOf (rgbToOklab (⟨59, 130, 246⟩ : RGB))) := by
      rw [heq]
      linarith [ht.1]
    have hw2 : linearToSrgb (bLinOf (rgbToOklab (⟨59, 130, 246⟩ : RGB))) ≤ 1 := by
      rw [heq]
      linarith [ht.2]
    rw [min_eq_right hw2, max_eq_right hw1]
    refine jsRoundR_eq _ 246 ?_ ?_
    · rw [heq]
      push_cast
      linarith [ht.1]
    · rw [heq]
      push_cast
      linarith [ht.2]
  have hcore : oklabToRgb (rgbToOklab (⟨59, 130, 246⟩ : RGB)) =
      (⟨59, 130, 246⟩ : RGB) := by
    rw [oklabToRgb_eq, hchr, hchg, hchb]
    simp only [RGB.mk.injEq]
    norm_num
  have hhex : rgbToHex (⟨59, 130, 246⟩ : RGB) = "#3b82f6".data := by
    norm_num [rgbToHex, toHexPair, jsRound, jsMax, jsMin, hexDigitLower]
    all_goals decide
  unfold hexToOklch
  rw [if_pos (by decide : hexColorSchemaOK "#3b82f6".data = true), hrgb]
  show oklchToHex (oklabToOklch (rgbToOklab (⟨59, 130, 246⟩ : RGB))) =
    some "#3b82f6".data
  unfold oklchToHex
  rw [if_pos hsch, oklch_oklab_cancel _ hcge, hcore, hhex]


set_option maxHeartbeats 2000000 in
theorem c4_sample_2 :
    (hexToOklch "#ef4444".data).bind oklchToHex = some "#ef4444".data := by
  have hrgb : hexToRgb "#ef4444".data = some ⟨239, 68, 68⟩ := by
    simp [hexToRgb, normalizeHex, jsTrim, withHash, expandShorthand,
      jsToUpper, toUpperChar, parseHex6, isHexDigitJs, hexDigitVal,
      isJsWhitespace]
  have hxr : (0.863157213454102014 : ℝ) ≤ linR (⟨239, 68, 68⟩ : RGB) ∧
      linR (⟨239, 68, 68⟩ : RGB) ≤ 0.863157213454102015 := by
    rw [linR_eval (⟨239, 68, 68⟩ : RGB) 239 (by norm_num) (by norm_num)]
    exact rpow24_interval _ _ _ (by norm_num) (by norm_num) (by norm_num)
      (by norm_num) (by norm_num)
  have hxg : (0.057805430191067211 : ℝ) ≤ linG (⟨239, 68, 68⟩ : RGB) ∧
      linG (⟨239, 68, 68⟩ : RGB) ≤ 0.057805430191067212 := by
    rw [linG_eval (⟨239, 68, 68⟩ : RGB) 68 (by norm_num) (by norm_num)]
    exact rpow24_interval _ _ _ (by norm_num) (by norm_num) (by norm_num)
      (by norm_num) (by norm_num)
  have hxb : (0.057805430191067211 : ℝ) ≤ linB (⟨239, 68, 68⟩ : RGB) ∧
      linB (⟨239, 68, 68⟩ : RGB) ≤ 0.057805430191067212 := by
    rw [linB_eval (⟨239, 68, 68⟩ : RGB) 68 (by norm_num) (by norm_num)]
    exact rpow24_interval _ _ _ (by norm_num) (by norm_num) (by norm_num)
      (by norm_num) (by norm_num)
  have hL : (0.38978872679915824 : ℝ) ≤ lmsFwdL (⟨239, 68, 68⟩ : RGB) ∧
      lmsFwdL (⟨239, 68, 68⟩ : RGB) ≤ 0.389788726799158242 := by
    unfold lmsFwdL
    exact ⟨by linarith [hxr.1, hxg.1, hxb.1], by linarith [hxr.2, hxg.2, hxb.2]⟩
  have hM : (0.228462290340331953 : ℝ) ≤ lmsFwdM (⟨239, 68, 68⟩ : RGB) ∧
      lmsFwdM (⟨239, 68, 68⟩ : RGB) ≤ 0.228462290340331955 := by
    unfold lmsFwdM
    exact ⟨by linarith [hxr.1, hxg.1, hxb.1], by linarith [hxr.2, hxg.2, hxb.2]⟩
  have hS : (0.128919975348748399 : ℝ) ≤ lmsFwdS (⟨239, 68, 68⟩ : RGB) ∧
      lmsFwdS (⟨239, 68, 68⟩ : RGB) ≤ 0.128919975348748401 := by
    unfold lmsFwdS
    exact ⟨by linarith [hxr.1, hxg.1, hxb.1], by linarith [hxr.2, hxg.2, hxb.2]⟩
  have hcL : (0.730482402606502475 : ℝ) ≤ mathCbrt (lmsFwdL (⟨239, 68, 68⟩ : RGB)) ∧
      mathCbrt (lmsFwdL (⟨239, 68, 68⟩ : RGB)) ≤ 0.730482402606502477 :=
    mathCbrt_interval _ 0.38978872679915824 0.389788726799158242 0.730482402606502475 0.730482402606502477 (by norm_num) (by norm_num)
      hL.1 hL.2 (by norm_num) (by norm_num)
  have hcM : (0.61132408818909205 : ℝ) ≤ mathCbrt (lmsFwdM (⟨239, 68, 68⟩ : RGB)) ∧
      mathCbrt (lmsFwdM (⟨239, 68, 68⟩ : RGB)) ≤ 0.611324088189092053 :=
    mathCbrt_interval _ 0.228462290340331953 0.228462290340331955 0.61132408818909205 0.611324088189092053 (by norm_num) (by norm_num)
      hM.1 hM.2 (by norm_num) (by norm_num)
  have hcS : (0.505172930807312686 : ℝ) ≤ mathCbrt (lmsFwdS (⟨239, 68, 68⟩ : RGB)) ∧
      mathCbrt (lmsFwdS (⟨239, 68, 68⟩ : RGB)) ≤ 0.50517293080731269 :=
    mathCbrt_interval _ 0.128919975348748399 0.128919975348748401 0.505172930807312686 0.50517293080731269 (by norm_num) (by norm_num)
      hS.1 hS.2 (by norm_num) (by norm_num)
  have hll : (0.636833711019737612 : ℝ) ≤ (rgbToOklab (⟨239, 68, 68⟩ : RGB)).l ∧
      (rgbToOklab (⟨239, 68, 68⟩ : RGB)).l ≤ 0.636833711019737615 := by
    rw [rgbToOklab_eq]
    dsimp only
    exact ⟨by linarith [hcL.1, hcL.2, hcM.1, hcM.2, hcS.1, hcS.2],
      by linarith [hcL.1, hcL.2, hcM.1, hcM.2, hcS.1, hcS.2]⟩
  have hla : (0.187863922781455712 : ℝ) ≤ (rgbToOklab (⟨239, 68, 68⟩ : RGB)).a ∧
      (rgbToOklab (⟨239, 68, 68⟩ : RGB)).a ≤ 0.187863922781455726 := by
    rw [rgbToOklab_eq]
    dsimp only
    exact ⟨by linarith [hcL.1, hcL.2, hcM.1, hcM.2, hcS.1, hcS.2],
      by linarith [hcL.1, hcL.2, hcM.1, hcM.2, hcS.1, hcS.2]⟩
  have hlb : (0.088928572707327532 : ℝ) ≤ (rgbToOklab (⟨239, 68, 68⟩ : RGB)).b ∧
      (rgbToOklab (⟨239, 68, 68⟩ : RGB)).b ≤ 0.088928572707327539 := by
    rw [rgbToOklab_eq]
    dsimp only
    exact ⟨by linarith [hcL.1, hcL.2, hcM.1, hcM.2, hcS.1, hcS.2],
      by linarith [hcL.1, hcL.2, hcM.1, hcM.2, hcS.1, hcS.2]⟩
  have hcge : ¬ Real.sqrt ((rgbToOklab (⟨239, 68, 68⟩ : RGB)).a *
      (rgbToOklab (⟨239, 68, 68⟩ : RGB)).a +
      (rgbToOklab (⟨239, 68, 68⟩ : RGB)).b *
      (rgbToOklab (⟨239, 68, 68⟩ : RGB)).b) < 0.0001 := by
    push_neg
    have habs : (0.0001 : ℝ) ≤ |(rgbToOklab (⟨239, 68, 68⟩ : RGB)).a| := by
      rw [abs_of_pos (by linarith [hla.1, hla.2])]
      linarith [hla.1, hla.2]
    exact le_trans habs (sqrt_sumsq_ge_abs_left _ _)
  have hsch : OklchSchemaOK (oklabToOklch (rgbToOklab (⟨239, 68, 68⟩ : RGB))) :=
    oklabToOklch_schemaOK _ (by linarith [hll.1]) (by linarith [hll.2])
  have hLp : (0.730482400750152509 : ℝ) ≤ lmsL (rgbToOklab (⟨239, 68, 68⟩ : RGB)) ∧
      lmsL (rgbToOklab (⟨239, 68, 68⟩ : RGB)) ≤ 0.73048240075015252 := by
    unfold lmsL
    exact ⟨by linarith [hll.1, hll.2, hla.1, hla.2, hlb.1, hlb.2],
      by linarith [hll.1, hll.2, hla.1, hla.2, hlb.1, hlb.2]⟩
  have hMp : (0.611324082055148809 : ℝ) ≤ lmsM (rgbToOklab (⟨239, 68, 68⟩ : RGB)) ∧
      lmsM (rgbToOklab (⟨239, 68, 68⟩ : RGB)) ≤ 0.611324082055148815 := by
    unfold lmsM
    exact ⟨by linarith [hll.1, hll.2, hla.1, hla.2, hlb.1, hlb.2],
      by linarith [hll.1, hll.2, hla.1, hla.2, hlb.1, hlb.2]⟩
  have hSp : (0.505172895951934783 : ℝ) ≤ lmsS (rgbToOklab (⟨239, 68, 68⟩ : RGB)) ∧
      lmsS (rgbToOklab (⟨239, 68, 68⟩ : RGB)) ≤ 0.505172895951934798 := by
    unfold lmsS
    exact ⟨by linarith [hll.1, hll.2, hla.1, hla.2, hlb.1, hlb.2],
      by linarith [hll.1, hll.2, hla.1, hla.2, hlb.1, hlb.2]⟩
  have hLp3 := cube_interval (lmsL (rgbToOklab (⟨239, 68, 68⟩ : RGB)))
    0.730482400750152509 0.73048240075015252 (by norm_num) hLp.1 hLp.2
  have hMp3 := cube_interval (lmsM (rgbToOklab (⟨239, 68, 68⟩ : RGB)))
    0.611324082055148809 0.611324082055148815 (by norm_num) hMp.1 hMp.2
  have hSp3 := cube_interval (lmsS (rgbToOklab (⟨239, 68, 68⟩ : RGB)))
    0.505172895951934783 0.505172895951934798 (by norm_num) hSp.1 hSp.2
  have hUr : (0.863157218073320778 : ℝ) ≤ rLinOf (rgbToOklab (⟨239, 68, 68⟩ : RGB)) ∧
      rLinOf (rgbToOklab (⟨239, 68, 68⟩ : RGB)) ≤ 0.863157218073320875 := by
    unfold rLinOf
    exact ⟨by linarith [hLp3.1, hLp3.2, hMp3.1, hMp3.2, hSp3.1, hSp3.2],
      by linarith [hLp3.1, hLp3.2, hMp3.1, hMp3.2, hSp3.1, hSp3.2]⟩
  have hUg : (0.057805424998472299 : ℝ) ≤ gLinOf (rgbToOklab (⟨239, 68, 68⟩ : RGB)) ∧
      gLinOf (rgbToOklab (⟨239, 68, 68⟩ : RGB)) ≤ 0.057805424998472344 := by
    unfold gLinOf
    exact ⟨by linarith [hLp3.1, hLp3.2, hMp3.1, hMp3.2, hSp3.1, hSp3.2],
      by linarith [hLp3.1, hLp3.2, hMp3.1, hMp3.2, hSp3.1, hSp3.2]⟩
  have hUb : (0.057805389521099968 : ℝ) ≤ bLinOf (rgbToOklab (⟨239, 68, 68⟩ : RGB)) ∧
      bLinOf (rgbToOklab (⟨239, 68, 68⟩ : RGB)) ≤ 0.057805389521099994 := by
    unfold bLinOf
    exact ⟨by linarith [hLp3.1, hLp3.2, hMp3.1, hMp3.2, hSp3.1, hSp3.2],
      by linarith [hLp3.1, hLp3.2, hMp3.1, hMp3.2, hSp3.1, hSp3.2]⟩
  have hchr : jsRoundR (max 0 (min 1 (linearToSrgb (rLinOf (rgbToOklab
      (⟨239, 68, 68⟩ : RGB))))) * 255) = (239 : ℤ) := by
    have hgt : (0.0031308 : ℝ) < rLinOf (rgbToOklab (⟨239, 68, 68⟩ : RGB)) := by
      linarith [hUr.1]
    have heq := linearToSrgb_of_gt _ hgt
    have ht := rpow_inv24_interval (rLinOf (rgbToOklab (⟨239, 68, 68⟩ : RGB)))
      0.863157218073320778 0.863157218073320875 0.9405259755197363 0.940525975519736345 (by norm_num) (by norm_num) (by norm_num)
      hUr.1 hUr.2 (by norm_num) (by norm_num)
    have hw1 : (0 : ℝ) ≤ linearToSrgb (rLinOf (rgbToOklab (⟨239, 68, 68⟩ : RGB))) := by
      rw [heq]
      linarith [ht.1]
    have hw2 : linearToSrgb (rLinOf (rgbToOklab (⟨239, 68, 68⟩ : RGB))) ≤ 1 := by
      rw [heq]
      linarith [ht.2]
    rw [min_eq_right hw2, max_eq_right hw1]
    refine jsRoundR_eq _ 239 ?_ ?_
    · rw [heq]
      push_cast
      linarith [ht.1]
    · rw [heq]
      push_cast
      linarith [ht.2]
  have hchg : jsRoundR (max 0 (min 1 (linearToSrgb (gLinOf (rgbToOklab
      (⟨239, 68, 68⟩ : RGB))))) * 255) = (68 : ℤ) := by
    have hgt : (0.0031308 : ℝ) < gLinOf (rgbToOklab (⟨239, 68, 68⟩ : RGB)) := by
      linarith [hUg.1]
    have heq := linearToSrgb_of_gt _ hgt
    have ht := rpow_inv24_interval (gLinOf (rgbToOklab (⟨239, 68, 68⟩ : RGB)))
      0.057805424998472299 0.057805424998472344 0.304897302964081654 0.304897302964081754 (by norm_num) (by norm_num) (by norm_num)
      hUg.1 hUg.2 (by norm_num) (by norm_num)
    have hw1 : (0 : ℝ) ≤ linearToSrgb (gLinOf (rgbToOklab (⟨239, 68, 68⟩ : RGB))) := by
      rw [heq]
      linarith [ht.1]
    have hw2 : linearToSrgb (gLinOf (rgbToOklab (⟨239, 68, 68⟩ : RGB))) ≤ 1 := by
      rw [heq]
      linarith [ht.2]
    rw [min_eq_right hw2, max_eq_right hw1]
    refine jsRoundR_eq _ 68 ?_ ?_
    · rw [heq]
      push_cast
      linarith [ht.1]
    · rw [heq]
      push_cast
      linarith [ht.2]
  have hchb : jsRoundR (max 0 (min 1 (linearToSrgb (bLinOf (rgbToOklab
      (⟨239, 68, 68⟩ : RGB))))) * 255) = (68 : ℤ) := by
    have hgt : (0.0031308 : ℝ) < bLinOf (rgbToOklab (⟨239, 68, 68⟩ : RGB)) := by
      linarith [hUb.1]
    have heq := linearToSrgb_of_gt _ hgt
    have ht := rpow_inv24_interval (bLinOf (rgbToOklab (⟨239, 68, 68⟩ : RGB)))
      0.057805389521099968 0.057805389521099994 0.30489722499448886 0.304897224994488918 (by norm_num) (by norm_num) (by norm_num)
      hUb.1 hUb.2 (by norm_num) (by norm_num)
    have hw1 : (0 : ℝ) ≤ linearToSrgb (bLinOf (rgbToOklab (⟨239, 68, 68⟩ : RGB))) := by
      rw [heq]
      linarith [ht.1]
    have hw2 : linearToSrgb (bLinOf (rgbToOklab (⟨239, 68, 68⟩ : RGB))) ≤ 1 := by
      rw [heq]
      linarith [ht.2]
    rw [min_eq_right hw2, max_eq_right hw1]
    refine jsRoundR_eq _ 68 ?_ ?_
    · rw [heq]
      push_cast
      linarith [ht.1]
    · rw [heq]
      push_cast
      linarith [ht.2]
  have hcore : oklabToRgb (rgbToOklab (⟨239, 68, 68⟩ : RGB)) =
      (⟨239, 68, 68⟩ : RGB) := by
    rw [oklabToRgb_eq, hchr, hchg, hchb]
    simp only [RGB.mk.injEq]
    norm_num
  have hhex : rgbToHex (⟨239, 68, 68⟩ : RGB) = "#ef4444".data := by
    norm_num [rgbToHex, toHexPair, jsRound, jsMax, jsMin, hexDigitLower]
    all_goals decide
  unfold hexToOklch
  rw [if_pos (by decide : hexColorSchemaOK "#ef4444".data = true), hrgb]
  show oklchToHex (oklabToOklch (rgbToOklab (⟨239, 68, 68⟩ : RGB))) =
    some "#ef4444".data
  unfold oklchToHex
  rw [if_pos hsch, oklch_oklab_cancel _ hcge, hcore, hhex]


set_option maxHeartbeats 2000000 in
theorem c4_sample_3 :
    (hexToOklch "#22c55e".data).bind oklchToHex = some "#22c55e".data := by
  have hrgb : hexToRgb "#22c55e".data = some ⟨34, 197, 94⟩ := by
    simp [hexToRgb, normalizeHex, jsTrim, withHash, expandShorthand,
      jsToUpper, toUpperChar, parseHex6, isHexDigitJs, hexDigitVal,
      isJsWhitespace]
  have hxr : (0.015996293365509628 : ℝ) ≤ linR (⟨34, 197, 94⟩ : RGB) ∧
      linR (⟨34, 197, 94⟩ : RGB) ≤ 0.015996293365509629 := by
    rw [linR_eval (⟨34, 197, 94⟩ : RGB) 34 (by norm_num) (by norm_num)]
    exact rpow24_interval _ _ _ (by norm_num) (by norm_num) (by norm_num)
      (by norm_num) (by norm_num)
  have hxg : (0.558340389634267663 : ℝ) ≤ linG (⟨34, 197, 94⟩ : RGB) ∧
      linG (⟨34, 197, 94⟩ : RGB) ≤ 0.558340389634267664 := by
    rw [linG_eval (⟨34, 197, 94⟩ : RGB) 197 (by norm_num) (by norm_num)]
    exact rpow24_interval _ _ _ (by norm_num) (by norm_num) (by norm_num)
      (by norm_num) (by norm_num)
  have hxb : (0.111932427836905573 : ℝ) ≤ linB (⟨34, 197, 94⟩ : RGB) ∧
      linB (⟨34, 197, 94⟩ : RGB) ≤ 0.111932427836905574 := by
    rw [linB_eval (⟨34, 197, 94⟩ : RGB) 94 (by norm_num) (by norm_num)]
    exact rpow24_interval _ _ _ (by norm_num) (by norm_num) (by norm_num)
      (by norm_num) (by norm_num)
  have hL : (0.311808607757532872 : ℝ) ≤ lmsFwdL (⟨34, 197, 94⟩ : RGB) ∧
      lmsFwdL (⟨34, 197, 94⟩ : RGB) ≤ 0.311808607757532874 := by
    unfold lmsFwdL
    exact ⟨by linarith [hxr.1, hxg.1, hxb.1], by linarith [hxr.2, hxg.2, hxb.2]⟩
  have hM : (0.395472921851920474 : ℝ) ≤ lmsFwdM (⟨34, 197, 94⟩ : RGB) ∧
      lmsFwdM (⟨34, 197, 94⟩ : RGB) ≤ 0.395472921851920476 := by
    unfold lmsFwdM
    exact ⟨by linarith [hxr.1, hxg.1, hxb.1], by linarith [hxr.2, hxg.2, hxb.2]⟩
  have hS : (0.22922256307084991 : ℝ) ≤ lmsFwdS (⟨34, 197, 94⟩ : RGB) ∧
      lmsFwdS (⟨34, 197, 94⟩ : RGB) ≤ 0.229222563070849912 := by
    unfold lmsFwdS
    exact ⟨by linarith [hxr.1, hxg.1, hxb.1], by linarith [hxr.2, hxg.2, hxb.2]⟩
  have hcL : (0.678103574003399358 : ℝ) ≤ mathCbrt (lmsFwdL (⟨34, 197, 94⟩ : RGB)) ∧
      mathCbrt (lmsFwdL (⟨34, 197, 94⟩ : RGB)) ≤ 0.67810357400339936 :=
    mathCbrt_interval _ 0.311808607757532872 0.311808607757532874 0.678103574003399358 0.67810357400339936 (by norm_num) (by norm_num)
      hL.1 hL.2 (by norm_num) (by norm_num)
  have hcM : (0.734016097133234792 : ℝ) ≤ mathCbrt (lmsFwdM (⟨34, 197, 94⟩ : RGB)) ∧
      mathCbrt (lmsFwdM (⟨34, 197, 94⟩ : RGB)) ≤ 0.734016097133234794 :=
    mathCbrt_interval _ 0.395472921851920474 0.395472921851920476 0.734016097133234792 0.734016097133234794 (by norm_num) (by norm_num)
      hM.1 hM.2 (by norm_num) (by norm_num)
  have hcS : (0.612001455162332669 : ℝ) ≤ mathCbrt (lmsFwdS (⟨34, 197, 94⟩ : RGB)) ∧
      mathCbrt (lmsFwdS (⟨34, 197, 94⟩ : RGB)) ≤ 0.612001455162332671 :=
    mathCbrt_interval _ 0.22922256307084991 0.229222563070849912 0.612001455162332669 0.612001455162332671 (by norm_num) (by norm_num)
      hS.1 hS.2 (by norm_num) (by norm_num)
  have hll : (0.722745913277287376 : ℝ) ≤ (rgbToOklab (⟨34, 197, 94⟩ : RGB)).l ∧
      (rgbToOklab (⟨34, 197, 94⟩ : RGB)).l ≤ 0.722745913277287379 := by
    rw [rgbToOklab_eq]
    dsimp only
    exact ⟨by linarith [hcL.1, hcL.2, hcM.1, hcM.2, hcS.1, hcS.2],
      by linarith [hcL.1, hcL.2, hcM.1, hcM.2, hcS.1, hcS.2]⟩
  have hla : (-0.165573916795847471 : ℝ) ≤ (rgbToOklab (⟨34, 197, 94⟩ : RGB)).a ∧
      (rgbToOklab (⟨34, 197, 94⟩ : RGB)).a ≤ -0.16557391679584746 := by
    rw [rgbToOklab_eq]
    dsimp only
    exact ⟨by linarith [hcL.1, hcL.2, hcM.1, hcM.2, hcS.1, hcS.2],
      by linarith [hcL.1, hcL.2, hcM.1, hcM.2, hcS.1, hcS.2]⟩
  have hlb : (0.09722195136432558 : ℝ) ≤ (rgbToOklab (⟨34, 197, 94⟩ : RGB)).b ∧
      (rgbToOklab (⟨34, 197, 94⟩ : RGB)).b ≤ 0.097221951364325584 := by
    rw [rgbToOklab_eq]
    dsimp only
    exact ⟨by linarith [hcL.1, hcL.2, hcM.1, hcM.2, hcS.1, hcS.2],
      by linarith [hcL.1, hcL.2, hcM.1, hcM.2, hcS.1, hcS.2]⟩
  have hcge : ¬ Real.sqrt ((rgbToOklab (⟨34, 197, 94⟩ : RGB)).a *
      (rgbToOklab (⟨34, 197, 94⟩ : RGB)).a +
      (rgbToOklab (⟨34, 197, 94⟩ : RGB)).b *
      (rgbToOklab (⟨34, 197, 94⟩ : RGB)).b) < 0.0001 := by
    push_neg
    have habs : (0.0001 : ℝ) ≤ |(rgbToOklab (⟨34, 197, 94⟩ : RGB)).a| := by
      rw [abs_of_neg (by linarith [hla.1, hla.2])]
      linarith [hla.1, hla.2]
    exact le_trans habs (sqrt_sumsq_ge_abs_left _ _)
  have hsch : OklchSchemaOK (oklabToOklch (rgbToOklab (⟨34, 197, 94⟩ : RGB))) :=
    oklabToOklch_schemaOK _ (by linarith [hll.1]) (by linarith [hll.2])
  have hLp : (0.678103577495467981 : ℝ) ≤ lmsL (rgbToOklab (⟨34, 197, 94⟩ : RGB)) ∧
      lmsL (rgbToOklab (⟨34, 197, 94⟩ : RGB)) ≤ 0.67810357749546799 := by
    unfold lmsL
    exact ⟨by linarith [hll.1, hll.2, hla.1, hla.2, hlb.1, hlb.2],
      by linarith [hll.1, hll.2, hla.1, hla.2, hlb.1, hlb.2]⟩
  have hMp : (0.734016091481263416 : ℝ) ≤ lmsM (rgbToOklab (⟨34, 197, 94⟩ : RGB)) ∧
      lmsM (rgbToOklab (⟨34, 197, 94⟩ : RGB)) ≤ 0.734016091481263421 := by
    unfold lmsM
    exact ⟨by linarith [hll.1, hll.2, hla.1, hla.2, hlb.1, hlb.2],
      by linarith [hll.1, hll.2, hla.1, hla.2, hlb.1, hlb.2]⟩
  have hSp : (0.612001413901831846 : ℝ) ≤ lmsS (rgbToOklab (⟨34, 197, 94⟩ : RGB)) ∧
      lmsS (rgbToOklab (⟨34, 197, 94⟩ : RGB)) ≤ 0.612001413901831857 := by
    unfold lmsS
    exact ⟨by linarith [hll.1, hll.2, hla.1, hla.2, hlb.1, hlb.2],
      by linarith [hll.1, hll.2, hla.1, hla.2, hlb.1, hlb.2]⟩
  have hLp3 := cube_interval (lmsL (rgbToOklab (⟨34, 197, 94⟩ : RGB)))
    0.678103577495467981 0.67810357749546799 (by norm_num) hLp.1 hLp.2
  have hMp3 := cube_interval (lmsM (rgbToOklab (⟨34, 197, 94⟩ : RGB)))
    0.734016091481263416 0.734016091481263421 (by norm_num) hMp.1 hMp.2
  have hSp3 := cube_interval (lmsS (rgbToOklab (⟨34, 197, 94⟩ : RGB)))
    0.612001413901831846 0.612001413901831857 (by norm_num) hSp.1 hSp.2
  have hUr : (0.015996332503128511 : ℝ) ≤ rLinOf (rgbToOklab (⟨34, 197, 94⟩ : RGB)) ∧
      rLinOf (rgbToOklab (⟨34, 197, 94⟩ : RGB)) ≤ 0.015996332503128592 := by
    unfold rLinOf
    exact ⟨by linarith [hLp3.1, hLp3.2, hMp3.1, hMp3.2, hSp3.1, hSp3.2],
      by linarith [hLp3.1, hLp3.2, hMp3.1, hMp3.2, hSp3.1, hSp3.2]⟩
  have hUg : (0.558340375477509583 : ℝ) ≤ gLinOf (rgbToOklab (⟨34, 197, 94⟩ : RGB)) ∧
      gLinOf (rgbToOklab (⟨34, 197, 94⟩ : RGB)) ≤ 0.558340375477509625 := by
    unfold gLinOf
    exact ⟨by linarith [hLp3.1, hLp3.2, hMp3.1, hMp3.2, hSp3.1, hSp3.2],
      by linarith [hLp3.1, hLp3.2, hMp3.1, hMp3.2, hSp3.1, hSp3.2]⟩
  have hUb : (0.111932355070724943 : ℝ) ≤ bLinOf (rgbToOklab (⟨34, 197, 94⟩ : RGB)) ∧
      bLinOf (rgbToOklab (⟨34, 197, 94⟩ : RGB)) ≤ 0.111932355070724971 := by
    unfold bLinOf
    exact ⟨by linarith [hLp3.1, hLp3.2, hMp3.1, hMp3.2, hSp3.1, hSp3.2],
      by linarith [hLp3.1, hLp3.2, hMp3.1, hMp3.2, hSp3.1, hSp3.2]⟩
  have hchr : jsRoundR (max 0 (min 1 (linearToSrgb (rLinOf (rgbToOklab
      (⟨34, 197, 94⟩ : RGB))))) * 255) = (34 : ℤ) := by
    have hgt : (0.0031308 : ℝ) < rLinOf (rgbToOklab (⟨34, 197, 94⟩ : RGB)) := by
      linarith [hUr.1]
    have heq := linearToSrgb_of_gt _ hgt
    have ht := rpow_inv24_interval (rLinOf (rgbToOklab (⟨34, 197, 94⟩ : RGB)))
      0.015996332503128511 0.015996332503128592 0.178515189884995524 0.178515189884995901 (by norm_num) (by norm_num) (by norm_num)
      hUr.1 hUr.2 (by norm_num) (by norm_num)
    have hw1 : (0 : ℝ) ≤ linearToSrgb (rLinOf (rgbToOklab (⟨34, 197, 94⟩ : RGB))) := by
      rw [heq]
      linarith [ht.1]
    have hw2 : linearToSrgb (rLinOf (rgbToOklab (⟨34, 197, 94⟩ : RGB))) ≤ 1 := by
      rw [heq]
      linarith [ht.2]
    rw [min_eq_right hw2, max_eq_right hw1]
    refine jsRoundR_eq _ 34 ?_ ?_
    · rw [heq]
      push_cast
      linarith [ht.1]
    · rw [heq]
      push_cast
      linarith [ht.2]
  have hchg : jsRoundR (max 0 (min 1 (linearToSrgb (gLinOf (rgbToOklab
      (⟨34, 197, 94⟩ : RGB))))) * 255) = (197 : ℤ) := by
    have hgt : (0.0031308 : ℝ) < gLinOf (rgbToOklab (⟨34, 197, 94⟩ : RGB)) := by
      linarith [hUg.1]
    have heq := linearToSrgb_of_gt _ hgt
    have ht := rpow_inv24_interval (gLinOf (rgbToOklab (⟨34, 197, 94⟩ : RGB)))
      0.558340375477509583 0.558340375477509625 0.784406645369771879 0.784406645369771904 (by norm_num) (by norm_num) (by norm_num)
      hUg.1 hUg.2 (by norm_num) (by norm_num)
    have hw1 : (0 : ℝ) ≤ linearToSrgb (gLinOf (rgbToOklab (⟨34, 197, 94⟩ : RGB))) := by
      rw [heq]
      linarith [ht.1]
    have hw2 : linearToSrgb (gLinOf (rgbToOklab (⟨34, 197, 94⟩ : RGB))) ≤ 1 := by
      rw [heq]
      linarith [ht.2]
    rw [min_eq_right hw2, max_eq_right hw1]
    refine jsRoundR_eq _ 197 ?_ ?_
    · rw [heq]
      push_cast
      linarith [ht.1]
    · rw [heq]
      push_cast
      linarith [ht.2]
  have hchb : jsRoundR (max 0 (min 1 (linearToSrgb (bLinOf (rgbToOklab
      (⟨34, 197, 94⟩ : RGB))))) * 255) = (94 : ℤ) := by
    have hgt : (0.0031308 : ℝ) < bLinOf (rgbToOklab (⟨34, 197, 94⟩ : RGB)) := by
      linarith [hUb.1]
    have heq := linearToSrgb_of_gt _ hgt
    have ht := rpow_inv24_interval (bLinOf (rgbToOklab (⟨34, 197, 94⟩ : RGB)))
      0.111932355070724943 0.111932355070724971 0.401542498798108626 0.401542498798108669 (by norm_num) (by norm_num) (by norm_num)
      hUb.1 hUb.2 (by norm_num) (by norm_num)
    have hw1 : (0 : ℝ) ≤ linearToSrgb (bLinOf (rgbToOklab (⟨34, 197, 94⟩ : RGB))) := by
      rw [heq]
      linarith [ht.1]
    have hw2 : linearToSrgb (bLinOf (rgbToOklab (⟨34, 197, 94⟩ : RGB))) ≤ 1 := by
      rw [heq]
      linarith [ht.2]
    rw [min_eq_right hw2, max_eq_right hw1]
    refine jsRoundR_eq _ 94 ?_ ?_
    · rw [heq]
      push_cast
      linarith [ht.1]
    · rw [heq]
      push_cast
      linarith [ht.2]
  have hcore : oklabToRgb (rgbToOklab (⟨34, 197, 94⟩ : RGB)) =
      (⟨34, 197, 94⟩ : RGB) := by
    rw [oklabToRgb_eq, hchr, hchg, hchb]
    simp only [RGB.mk.injEq]
    norm_num
  have hhex : rgbToHex (⟨34, 197, 94⟩ : RGB) = "#22c55e".data := by
    norm_num [rgbToHex, toHexPair, jsRound, jsMax, jsMin, hexDigitLower]
    all_goals decide
  unfold hexToOklch
  rw [if_pos (by decide : hexColorSchemaOK "#22c55e".data = true), hrgb]
  show oklchToHex (oklabToOklch (rgbToOklab (⟨34, 197, 94⟩ : RGB))) =
    some "#22c55e".data
  unfold oklchToHex
  rw [if_pos hsch, oklch_oklab_cancel _ hcge, hcore, hhex]


set_option maxHeartbeats 2000000 in
theorem c4_sample_4 :
    (hexToOklch "#f59e0b".data).bind oklchToHex = some "#f59e0b".data := by
  have hrgb : hexToRgb "#f59e0b".data = some ⟨245, 158, 11⟩ := by
    simp [hexToRgb, normalizeHex, jsTrim, withHash, expandShorthand,
      jsToUpper, toUpperChar, parseHex6, isHexDigitJs, hexDigitVal,
      isJsWhitespace]
  have hxr : (0.913098651793418912 : ℝ) ≤ linR (⟨245, 158, 11⟩ : RGB) ∧
      linR (⟨245, 158, 11⟩ : RGB) ≤ 0.913098651793418913 := by
    rw [linR_eval (⟨245, 158, 11⟩ : RGB) 245 (by norm_num) (by norm_num)]
    exact rpow24_interval _ _ _ (by norm_num) (by norm_num) (by norm_num)
      (by norm_num) (by norm_num)
  have hxg : (0.341914424908660764 : ℝ) ≤ linG (⟨245, 158, 11⟩ : RGB) ∧
      linG (⟨245, 158, 11⟩ : RGB) ≤ 0.341914424908660765 := by
    rw [linG_eval (⟨245, 158, 11⟩ : RGB) 158 (by norm_num) (by norm_num)]
    exact rpow24_interval _ _ _ (by norm_num) (by norm_num) (by norm_num)
      (by norm_num) (by norm_num)
  have hxb : (0.003346535763899158 : ℝ) ≤ linB (⟨245, 158, 11⟩ : RGB) ∧
      linB (⟨245, 158, 11⟩ : RGB) ≤ 0.003346535763899159 := by
    rw [linB_eval (⟨245, 158, 11⟩ : RGB) 11 (by norm_num) (by norm_num)]
    exact rpow24_interval _ _ _ (by norm_num) (by norm_num) (by norm_num)
      (by norm_num) (by norm_num)
  have hL : (0.559950865791747277 : ℝ) ≤ lmsFwdL (⟨245, 158, 11⟩ : RGB) ∧
      lmsFwdL (⟨245, 158, 11⟩ : RGB) ≤ 0.559950865791747279 := by
    unfold lmsFwdL
    exact ⟨by linarith [hxr.1, hxg.1, hxb.1], by linarith [hxr.2, hxg.2, hxb.2]⟩
  have hM : (0.426589199771378488 : ℝ) ≤ lmsFwdM (⟨245, 158, 11⟩ : RGB) ∧
      lmsFwdM (⟨245, 158, 11⟩ : RGB) ≤ 0.42658919977137849 := by
    unfold lmsFwdM
    exact ⟨by linarith [hxr.1, hxg.1, hxb.1], by linarith [hxr.2, hxg.2, hxb.2]⟩
  have hS : (0.179060839506588103 : ℝ) ≤ lmsFwdS (⟨245, 158, 11⟩ : RGB) ∧
      lmsFwdS (⟨245, 158, 11⟩ : RGB) ≤ 0.179060839506588105 := by
    unfold lmsFwdS
    exact ⟨by linarith [hxr.1, hxg.1, hxb.1], by linarith [hxr.2, hxg.2, hxb.2]⟩
  have hcL : (0.824232952579236255 : ℝ) ≤ mathCbrt (lmsFwdL (⟨245, 158, 11⟩ : RGB)) ∧
      mathCbrt (lmsFwdL (⟨245, 158, 11⟩ : RGB)) ≤ 0.824232952579236257 :=
    mathCbrt_interval _ 0.559950865791747277 0.559950865791747279 0.824232952579236255 0.824232952579236257 (by norm_num) (by norm_num)
      hL.1 hL.2 (by norm_num) (by norm_num)
  have hcM : (0.752783258384893729 : ℝ) ≤ mathCbrt (lmsFwdM (⟨245, 158, 11⟩ : RGB)) ∧
      mathCbrt (lmsFwdM (⟨245, 158, 11⟩ : RGB)) ≤ 0.752783258384893731 :=
    mathCbrt_interval _ 0.426589199771378488 0.42658919977137849 0.752783258384893729 0.752783258384893731 (by norm_num) (by norm_num)
      hM.1 hM.2 (by norm_num) (by norm_num)
  have hcS : (0.563637922443319832 : ℝ) ≤ mathCbrt (lmsFwdS (⟨245, 158, 11⟩ : RGB)) ∧
      mathCbrt (lmsFwdS (⟨245, 158, 11⟩ : RGB)) ≤ 0.563637922443319835 :=
    mathCbrt_interval _ 0.179060839506588103 0.179060839506588105 0.563637922443319832 0.563637922443319835 (by norm_num) (by norm_num)
      hS.1 hS.2 (by norm_num) (by norm_num)
  have hll : (0.76859035433484145 : ℝ) ≤ (rgbToOklab (⟨245, 158, 11⟩ : RGB)).l ∧
      (rgbToOklab (⟨245, 158, 11⟩ : RGB)).l ≤ 0.768590354334841453 := by
    rw [rgbToOklab_eq]
    dsimp only
    exact ⟨by linarith [hcL.1, hcL.2, hcM.1, hcM.2, hcS.1, hcS.2],
      by linarith [hcL.1, hcL.2, hcM.1, hcM.2, hcS.1, hcS.2]⟩
  have hla : (0.056099688959569126 : ℝ) ≤ (rgbToOklab (⟨245, 158, 11⟩ : RGB)).a ∧
      (rgbToOklab (⟨245, 158, 11⟩ : RGB)).a ≤ 0.056099688959569137 := by
    rw [rgbToOklab_eq]
    dsimp only
    exact ⟨by linarith [hcL.1, hcL.2, hcM.1, hcM.2, hcS.1, hcS.2],
      by linarith [hcL.1, hcL.2, hcM.1, hcM.2, hcS.1, hcS.2]⟩
  have hlb : (0.154808113035889041 : ℝ) ≤ (rgbToOklab (⟨245, 158, 11⟩ : RGB)).b ∧
      (rgbToOklab (⟨245, 158, 11⟩ : RGB)).b ≤ 0.154808113035889046 := by
    rw [rgbToOklab_eq]
    dsimp only
    exact ⟨by linarith [hcL.1, hcL.2, hcM.1, hcM.2, hcS.1, hcS.2],
      by linarith [hcL.1, hcL.2, hcM.1, hcM.2, hcS.1, hcS.2]⟩
  have hcge : ¬ Real.sqrt ((rgbToOklab (⟨245, 158, 11⟩ : RGB)).a *
      (rgbToOklab (⟨245, 158, 11⟩ : RGB)).a +
      (rgbToOklab (⟨245, 158, 11⟩ : RGB)).b *
      (rgbToOklab (⟨245, 158, 11⟩ : RGB)).b) < 0.0001 := by
    push_neg
    have habs : (0.0001 : ℝ) ≤ |(rgbToOklab (⟨245, 158, 11⟩ : RGB)).b| := by
      rw [abs_of_pos (by linarith [hlb.1, hlb.2])]
      linarith [hlb.1, hlb.2]
    exact le_trans habs (sqrt_sumsq_ge_abs_right _ _)
  have hsch : OklchSchemaOK (oklabToOklch (rgbToOklab (⟨245, 158, 11⟩ : RGB))) :=
    oklabToOklch_schemaOK _ (by linarith [hll.1]) (by linarith [hll.2])
  have hLp : (0.82423295282357636 : ℝ) ≤ lmsL (rgbToOklab (⟨245, 158, 11⟩ : RGB)) ∧
      lmsL (rgbToOklab (⟨245, 158, 11⟩ : RGB)) ≤ 0.82423295282357637 := by
    unfold lmsL
    exact ⟨by linarith [hll.1, hll.2, hla.1, hla.2, hlb.1, hlb.2],
      by linarith [hll.1, hll.2, hla.1, hla.2, hlb.1, hlb.2]⟩
  have hMp : (0.752783251668672338 : ℝ) ≤ lmsM (rgbToOklab (⟨245, 158, 11⟩ : RGB)) ∧
      lmsM (rgbToOklab (⟨245, 158, 11⟩ : RGB)) ≤ 0.752783251668672343 := by
    unfold lmsM
    exact ⟨by linarith [hll.1, hll.2, hla.1, hla.2, hlb.1, hlb.2],
      by linarith [hll.1, hll.2, hla.1, hla.2, hlb.1, hlb.2]⟩
  have hSp : (0.563637879111287466 : ℝ) ≤ lmsS (rgbToOklab (⟨245, 158, 11⟩ : RGB)) ∧
      lmsS (rgbToOklab (⟨245, 158, 11⟩ : RGB)) ≤ 0.563637879111287478 := by
    unfold lmsS
    exact ⟨by linarith [hll.1, hll.2, hla.1, hla.2, hlb.1, hlb.2],
      by linarith [hll.1, hll.2, hla.1, hla.2, hlb.1, hlb.2]⟩
  have hLp3 := cube_interval (lmsL (rgbToOklab (⟨245, 158, 11⟩ : RGB)))
    0.82423295282357636 0.82423295282357637 (by norm_num) hLp.1 hLp.2
  have hMp3 := cube_interval (lmsM (rgbToOklab (⟨245, 158, 11⟩ : RGB)))
    0.752783251668672338 0.752783251668672343 (by norm_num) hMp.1 hMp.2
  have hSp3 := cube_interval (lmsS (rgbToOklab (⟨245, 158, 11⟩ : RGB)))
    0.563637879111287466 0.563637879111287478 (by norm_num) hSp.1 hSp.2
  have hUr : (0.913098682176966536 : ℝ) ≤ rLinOf (rgbToOklab (⟨245, 158, 11⟩ : RGB)) ∧
      rLinOf (rgbToOklab (⟨245, 158, 11⟩ : RGB)) ≤ 0.913098682176966651 := by
    unfold rLinOf
    exact ⟨by linarith [hLp3.1, hLp3.2, hMp3.1, hMp3.2, hSp3.1, hSp3.2],
      by linarith [hLp3.1, hLp3.2, hMp3.1, hMp3.2, hSp3.1, hSp3.2]⟩
  have hUg : (0.341914408442839325 : ℝ) ≤ gLinOf (rgbToOklab (⟨245, 158, 11⟩ : RGB)) ∧
      gLinOf (rgbToOklab (⟨245, 158, 11⟩ : RGB)) ≤ 0.341914408442839378 := by
    unfold gLinOf
    exact ⟨by linarith [hLp3.1, hLp3.2, hMp3.1, hMp3.2, hSp3.1, hSp3.2],
      by linarith [hLp3.1, hLp3.2, hMp3.1, hMp3.2, hSp3.1, hSp3.2]⟩
  have hUb : (0.003346473317194038 : ℝ) ≤ bLinOf (rgbToOklab (⟨245, 158, 11⟩ : RGB)) ∧
      bLinOf (rgbToOklab (⟨245, 158, 11⟩ : RGB)) ≤ 0.003346473317194065 := by
    unfold bLinOf
    exact ⟨by linarith [hLp3.1, hLp3.2, hMp3.1, hMp3.2, hSp3.1, hSp3.2],
      by linarith [hLp3.1, hLp3.2, hMp3.1, hMp3.2, hSp3.1, hSp3.2]⟩
  have hchr : jsRoundR (max 0 (min 1 (linearToSrgb (rLinOf (rgbToOklab
      (⟨245, 158, 11⟩ : RGB))))) * 255) = (245 : ℤ) := by
    have hgt : (0.0031308 : ℝ) < rLinOf (rgbToOklab (⟨245, 158, 11⟩ : RGB)) := by
      linarith [hUr.1]
    have heq := linearToSrgb_of_gt _ hgt
    have ht := rpow_inv24_interval (rLinOf (rgbToOklab (⟨245, 158, 11⟩ : RGB)))
      0.913098682176966536 0.913098682176966651 0.962828746738392785 0.962828746738392836 (by norm_num) (by norm_num) (by norm_num)
      hUr.1 hUr.2 (by norm_num) (by norm_num)
    have hw1 : (0 : ℝ) ≤ linearToSrgb (rLinOf (rgbToOklab (⟨245, 158, 11⟩ : RGB))) := by
      rw [heq]
      linarith [ht.1]
    have hw2 : linearToSrgb (rLinOf (rgbToOklab (⟨245, 158, 11⟩ : RGB))) ≤ 1 := by
      rw [heq]
      linarith [ht.2]
    rw [min_eq_right hw2, max_eq_right hw1]
    refine jsRoundR_eq _ 245 ?_ ?_
    · rw [heq]
      push_cast
      linarith [ht.1]
    · rw [heq]
      push_cast
      linarith [ht.2]
  have hchg : jsRoundR (max 0 (min 1 (linearToSrgb (gLinOf (rgbToOklab
      (⟨245, 158, 11⟩ : RGB))))) * 255) = (158 : ℤ) := by
    have hgt : (0.0031308 : ℝ) < gLinOf (rgbToOklab (⟨245, 158, 11⟩ : RGB)) := by
      linarith [hUg.1]
    have heq := linearToSrgb_of_gt _ hgt
    have ht := rpow_inv24_interval (gLinOf (rgbToOklab (⟨245, 158, 11⟩ : RGB)))
      0.341914408442839325 0.341914408442839378 0.639438701043377231 0.639438701043377273 (by norm_num) (by norm_num) (by norm_num)
      hUg.1 hUg.2 (by norm_num) (by norm_num)
    have hw1 : (0 : ℝ) ≤ linearToSrgb (gLinOf (rgbToOklab (⟨245, 158, 11⟩ : RGB))) := by
      rw [heq]
      linarith [ht.1]
    have hw2 : linearToSrgb (gLinOf (rgbToOklab (⟨245, 158, 11⟩ : RGB))) ≤ 1 := by
      rw [heq]
      linarith [ht.2]
    rw [min_eq_right hw2, max_eq_right hw1]
    refine jsRoundR_eq _ 158 ?_ ?_
    · rw [heq]
      push_cast
      linarith [ht.1]
    · rw [heq]
      push_cast
      linarith [ht.2]
  have hchb : jsRoundR (max 0 (min 1 (linearToSrgb (bLinOf (rgbToOklab
      (⟨245, 158, 11⟩ : RGB))))) * 255) = (11 : ℤ) := by
    have hgt : (0.0031308 : ℝ) < bLinOf (rgbToOklab (⟨245, 158, 11⟩ : RGB)) := by
      linarith [hUb.1]
    have heq := linearToSrgb_of_gt _ hgt
    have ht := rpow_inv24_interval (bLinOf (rgbToOklab (⟨245, 158, 11⟩ : RGB)))
      0.003346473317194038 0.003346473317194065 0.09302037144682639 0.093020371446826704 (by norm_num) (by norm_num) (by norm_num)
      hUb.1 hUb.2 (by norm_num) (by norm_num)
    have hw1 : (0 : ℝ) ≤ linearToSrgb (bLinOf (rgbToOklab (⟨245, 158, 11⟩ : RGB))) := by
      rw [heq]
      linarith [ht.1]
    have hw2 : linearToSrgb (bLinOf (rgbToOklab (⟨245, 158, 11⟩ : RGB))) ≤ 1 := by
      rw [heq]
      linarith [ht.2]
    rw [min_eq_right hw2, max_eq_right hw1]
    refine jsRoundR_eq _ 11 ?_ ?_
    · rw [heq]
      push_cast
      linarith [ht.1]
    · rw [heq]
      push_cast
      linarith [ht.2]
  have hcore : oklabToRgb (rgbToOklab (⟨245, 158, 11⟩ : RGB)) =
      (⟨245, 158, 11⟩ : RGB) := by
    rw [oklabToRgb_eq, hchr, hchg, hchb]
    simp only [RGB.mk.injEq]
    norm_num
  have hhex : rgbToHex (⟨245, 158, 11⟩ : RGB) = "#f59e0b".data := by
    norm_num [rgbToHex, toHexPair, jsRound, jsMax, jsMin, hexDigitLower]
    all_goals decide
  unfold hexToOklch
  rw [if_pos (by decide : hexColorSchemaOK "#f59e0b".data = true), hrgb]
  show oklchToHex (oklabToOklch (rgbToOklab (⟨245, 158, 11⟩ : RGB))) =
    some "#f59e0b".data
  unfold oklchToHex
  rw [if_pos hsch, oklch_oklab_cancel _ hcge, hcore, hhex]


set_option maxHeartbeats 2000000 in
theorem c4_sample_5 :
    (hexToOklch "#8b5cf6".data).bind oklchToHex = some "#8b5cf6".data := by
  have hrgb : hexToRgb "#8b5cf6".data = some ⟨139, 92, 246⟩ := by
    simp [hexToRgb, normalizeHex, jsTrim, withHash, expandShorthand,
      jsToUpper, toUpperChar, parseHex6, isHexDigitJs, hexDigitVal,
      isJsWhitespace]
  have hxr : (0.25818285292159578 : ℝ) ≤ linR (⟨139, 92, 246⟩ : RGB) ∧
      linR (⟨139, 92, 246⟩ : RGB) ≤ 0.258182852921595781 := by
    rw [linR_eval (⟨139, 92, 246⟩ : RGB) 139 (by norm_num) (by norm_num)]
    exact rpow24_interval _ _ _ (by norm_num) (by norm_num) (by norm_num)
      (by norm_num) (by norm_num)
  have hxg : (0.107023102978267592 : ℝ) ≤ linG (⟨139, 92, 246⟩ : RGB) ∧
      linG (⟨139, 92, 246⟩ : RGB) ≤ 0.107023102978267593 := by
    rw [linG_eval (⟨139, 92, 246⟩ : RGB) 92 (by norm_num) (by norm_num)]
    exact rpow24_interval _ _ _ (by norm_num) (by norm_num) (by norm_num)
      (by norm_num) (by norm_num)
  have hxb : (0.921581856277294476 : ℝ) ≤ linB (⟨139, 92, 246⟩ : RGB) ∧
      linB (⟨139, 92, 246⟩ : RGB) ≤ 0.921581856277294477 := by
    rw [linB_eval (⟨139, 92, 246⟩ : RGB) 246 (by norm_num) (by norm_num)]
    exact rpow24_interval _ _ _ (by norm_num) (by norm_num) (by norm_num)
      (by norm_num) (by norm_num)
  have hL : (0.211240181264521142 : ℝ) ≤ lmsFwdL (⟨139, 92, 246⟩ : RGB) ∧
      lmsFwdL (⟨139, 92, 246⟩ : RGB) ≤ 0.211240181264521144 := by
    unfold lmsFwdL
    exact ⟨by linarith [hxr.1, hxg.1, hxb.1], by linarith [hxr.2, hxg.2, hxb.2]⟩
  have hM : (0.226535513843799473 : ℝ) ≤ lmsFwdM (⟨139, 92, 246⟩ : RGB) ∧
      lmsFwdM (⟨139, 92, 246⟩ : RGB) ≤ 0.226535513843799475 := by
    unfold lmsFwdM
    exact ⟨by linarith [hxr.1, hxg.1, hxb.1], by linarith [hxr.2, hxg.2, hxb.2]⟩
  have hS : (0.6335255459226729 : ℝ) ≤ lmsFwdS (⟨139, 92, 246⟩ : RGB) ∧
      lmsFwdS (⟨139, 92, 246⟩ : RGB) ≤ 0.633525545922672902 := by
    unfold lmsFwdS
    exact ⟨by linarith [hxr.1, hxg.1, hxb.1], by linarith [hxr.2, hxg.2, hxb.2]⟩
  have hcL : (0.595559985257530558 : ℝ) ≤ mathCbrt (lmsFwdL (⟨139, 92, 246⟩ : RGB)) ∧
      mathCbrt (lmsFwdL (⟨139, 92, 246⟩ : RGB)) ≤ 0.595559985257530561 :=
    mathCbrt_interval _ 0.211240181264521142 0.211240181264521144 0.595559985257530558 0.595559985257530561 (by norm_num) (by norm_num)
      hL.1 hL.2 (by norm_num) (by norm_num)
  have hcM : (0.609600664767438626 : ℝ) ≤ mathCbrt (lmsFwdM (⟨139, 92, 246⟩ : RGB)) ∧
      mathCbrt (lmsFwdM (⟨139, 92, 246⟩ : RGB)) ≤ 0.609600664767438629 :=
    mathCbrt_interval _ 0.226535513843799473 0.226535513843799475 0.609600664767438626 0.609600664767438629 (by norm_num) (by norm_num)
      hM.1 hM.2 (by norm_num) (by norm_num)
  have hcS : (0.858858023619974867 : ℝ) ≤ mathCbrt (lmsFwdS (⟨139, 92, 246⟩ : RGB)) ∧
      mathCbrt (lmsFwdS (⟨139, 92, 246⟩ : RGB)) ≤ 0.858858023619974869 :=
    mathCbrt_interval _ 0.6335255459226729 0.633525545922672902 0.858858023619974867 0.858858023619974869 (by norm_num) (by norm_num)
      hS.1 hS.2 (by norm_num) (by norm_num)
  have hll : (0.605630752424378711 : ℝ) ≤ (rgbToOklab (⟨139, 92, 246⟩ : RGB)).l ∧
      (rgbToOklab (⟨139, 92, 246⟩ : RGB)).l ≤ 0.605630752424378715 := by
    rw [rgbToOklab_eq]
    dsimp only
    exact ⟨by linarith [hcL.1, hcL.2, hcM.1, hcM.2, hcS.1, hcS.2],
      by linarith [hcL.1, hcL.2, hcM.1, hcM.2, hcS.1, hcS.2]⟩
  have hla : (0.08454135510446034 : ℝ) ≤ (rgbToOklab (⟨139, 92, 246⟩ : RGB)).a ∧
      (rgbToOklab (⟨139, 92, 246⟩ : RGB)).a ≤ 0.084541355104460355 := by
    rw [rgbToOklab_eq]
    dsimp only
    exact ⟨by linarith [hcL.1, hcL.2, hcM.1, hcM.2, hcS.1, hcS.2],
      by linarith [hcL.1, hcL.2, hcM.1, hcM.2, hcS.1, hcS.2]⟩
  have hlb : (-0.2019320731460407 : ℝ) ≤ (rgbToOklab (⟨139, 92, 246⟩ : RGB)).b ∧
      (rgbToOklab (⟨139, 92, 246⟩ : RGB)).b ≤ -0.201932073146040695 := by
    rw [rgbToOklab_eq]
    dsimp only
    exact ⟨by linarith [hcL.1, hcL.2, hcM.1, hcM.2, hcS.1, hcS.2],
      by linarith [hcL.1, hcL.2, hcM.1, hcM.2, hcS.1, hcS.2]⟩
  have hcge : ¬ Real.sqrt ((rgbToOklab (⟨139, 92, 246⟩ : RGB)).a *
      (rgbToOklab (⟨139, 92, 246⟩ : RGB)).a +
      (rgbToOklab (⟨139, 92, 246⟩ : RGB)).b *
      (rgbToOklab (⟨139, 92, 246⟩ : RGB)).b) < 0.0001 := by
    push_neg
    have habs : (0.0001 : ℝ) ≤ |(rgbToOklab (⟨139, 92, 246⟩ : RGB)).b| := by
      rw [abs_of_neg (by linarith [hlb.1, hlb.2])]
      linarith [hlb.1, hlb.2]
    exact le_trans habs (sqrt_sumsq_ge_abs_right _ _)
  have hsch : OklchSchemaOK (oklabToOklch (rgbToOklab (⟨139, 92, 246⟩ : RGB))) :=
    oklabToOklch_schemaOK _ (by linarith [hll.1]) (by linarith [hll.2])
  have hLp : (0.595559985100570652 : ℝ) ≤ lmsL (rgbToOklab (⟨139, 92, 246⟩ : RGB)) ∧
      lmsL (rgbToOklab (⟨139, 92, 246⟩ : RGB)) ≤ 0.595559985100570664 := by
    unfold lmsL
    exact ⟨by linarith [hll.1, hll.2, hla.1, hla.2, hlb.1, hlb.2],
      by linarith [hll.1, hll.2, hla.1, hla.2, hlb.1, hlb.2]⟩
  have hMp : (0.609600658696325698 : ℝ) ≤ lmsM (rgbToOklab (⟨139, 92, 246⟩ : RGB)) ∧
      lmsM (rgbToOklab (⟨139, 92, 246⟩ : RGB)) ≤ 0.609600658696325705 := by
    unfold lmsM
    exact ⟨by linarith [hll.1, hll.2, hla.1, hla.2, hlb.1, hlb.2],
      by linarith [hll.1, hll.2, hla.1, hla.2, hlb.1, hlb.2]⟩
  have hSp : (0.8588579929439111 : ℝ) ≤ lmsS (rgbToOklab (⟨139, 92, 246⟩ : RGB)) ∧
      lmsS (rgbToOklab (⟨139, 92, 246⟩ : RGB)) ≤ 0.858857992943911113 := by
    unfold lmsS
    exact ⟨by linarith [hll.1, hll.2, hla.1, hla.2, hlb.1, hlb.2],
      by linarith [hll.1, hll.2, hla.1, hla.2, hlb.1, hlb.2]⟩
  have hLp3 := cube_interval (lmsL (rgbToOklab (⟨139, 92, 246⟩ : RGB)))
    0.595559985100570652 0.595559985100570664 (by norm_num) hLp.1 hLp.2
  have hMp3 := cube_interval (lmsM (rgbToOklab (⟨139, 92, 246⟩ : RGB)))
    0.609600658696325698 0.609600658696325705 (by norm_num) hMp.1 hMp.2
  have hSp3 := cube_interval (lmsS (rgbToOklab (⟨139, 92, 246⟩ : RGB)))
    0.8588579929439111 0.858857992943911113 (by norm_num) hSp.1 hSp.2
  have hUr : (0.258182859204258859 : ℝ) ≤ rLinOf (rgbToOklab (⟨139, 92, 246⟩ : RGB)) ∧
      rLinOf (rgbToOklab (⟨139, 92, 246⟩ : RGB)) ≤ 0.258182859204258945 := by
    unfold rLinOf
    exact ⟨by linarith [hLp3.1, hLp3.2, hMp3.1, hMp3.2, hSp3.1, hSp3.2],
      by linarith [hLp3.1, hLp3.2, hMp3.1, hMp3.2, hSp3.1, hSp3.2]⟩
  have hUg : (0.107023108567795417 : ℝ) ≤ gLinOf (rgbToOklab (⟨139, 92, 246⟩ : RGB)) ∧
      gLinOf (rgbToOklab (⟨139, 92, 246⟩ : RGB)) ≤ 0.107023108567795464 := by
    unfold gLinOf
    exact ⟨by linarith [hLp3.1, hLp3.2, hMp3.1, hMp3.2, hSp3.1, hSp3.2],
      by linarith [hLp3.1, hLp3.2, hMp3.1, hMp3.2, hSp3.1, hSp3.2]⟩
  have hUb : (0.921581745160590935 : ℝ) ≤ bLinOf (rgbToOklab (⟨139, 92, 246⟩ : RGB)) ∧
      bLinOf (rgbToOklab (⟨139, 92, 246⟩ : RGB)) ≤ 0.921581745160590991 := by
    unfold bLinOf
    exact ⟨by linarith [hLp3.1, hLp3.2, hMp3.1, hMp3.2, hSp3.1, hSp3.2],
      by linarith [hLp3.1, hLp3.2, hMp3.1, hMp3.2, hSp3.1, hSp3.2]⟩
  have hchr : jsRoundR (max 0 (min 1 (linearToSrgb (rLinOf (rgbToOklab
      (⟨139, 92, 246⟩ : RGB))))) * 255) = (139 : ℤ) := by
    have hgt : (0.0031308 : ℝ) < rLinOf (rgbToOklab (⟨139, 92, 246⟩ : RGB)) := by
      linarith [hUr.1]
    have heq := linearToSrgb_of_gt _ hgt
    have ht := rpow_inv24_interval (rLinOf (rgbToOklab (⟨139, 92, 246⟩ : RGB)))
      0.258182859204258859 0.258182859204258945 0.568813313080777718 0.568813313080777798 (by norm_num) (by norm_num) (by norm_num)
      hUr.1 hUr.2 (by norm_num) (by norm_num)
    have hw1 : (0 : ℝ) ≤ linearToSrgb (rLinOf (rgbToOklab (⟨139, 92, 246⟩ : RGB))) := by
      rw [heq]
      linarith [ht.1]
    have hw2 : linearToSrgb (rLinOf (rgbToOklab (⟨139, 92, 246⟩ : RGB))) ≤ 1 := by
      rw [heq]
      linarith [ht.2]
    rw [min_eq_right hw2, max_eq_right hw1]
    refine jsRoundR_eq _ 139 ?_ ?_
    · rw [heq]
      push_cast
      linarith [ht.1]
    · rw [heq]
      push_cast
      linarith [ht.2]
  have hchg : jsRoundR (max 0 (min 1 (linearToSrgb (gLinOf (rgbToOklab
      (⟨139, 92, 246⟩ : RGB))))) * 255) = (92 : ℤ) := by
    have hgt : (0.0031308 : ℝ) < gLinOf (rgbToOklab (⟨139, 92, 246⟩ : RGB)) := by
      linarith [hUg.1]
    have heq := linearToSrgb_of_gt _ hgt
    have ht := rpow_inv24_interval (gLinOf (rgbToOklab (⟨139, 92, 246⟩ : RGB)))
      0.107023108567795417 0.107023108567795464 0.39410836281851054 0.394108362818510613 (by norm_num) (by norm_num) (by norm_num)
      hUg.1 hUg.2 (by norm_num) (by norm_num)
    have hw1 : (0 : ℝ) ≤ linearToSrgb (gLinOf (rgbToOklab (⟨139, 92, 246⟩ : RGB))) := by
      rw [heq]
      linarith [ht.1]
    have hw2 : linearToSrgb (gLinOf (rgbToOklab (⟨139, 92, 246⟩ : RGB))) ≤ 1 := by
      rw [heq]
      linarith [ht.2]
    rw [min_eq_right hw2, max_eq_right hw1]
    refine jsRoundR_eq _ 92 ?_ ?_
    · rw [heq]
      push_cast
      linarith [ht.1]
    · rw [heq]
      push_cast
      linarith [ht.2]
  have hchb : jsRoundR (max 0 (min 1 (linearToSrgb (bLinOf (rgbToOklab
      (⟨139, 92, 246⟩ : RGB))))) * 255) = (246 : ℤ) := by
    have hgt : (0.0031308 : ℝ) < bLinOf (rgbToOklab (⟨139, 92, 246⟩ : RGB)) := by
      linarith [hUb.1]
    have heq := linearToSrgb_of_gt _ hgt
    have ht := rpow_inv24_interval (bLinOf (rgbToOklab (⟨139, 92, 246⟩ : RGB)))
      0.921581745160590935 0.921581745160590991 0.966545811492641784 0.96654581149264181 (by norm_num) (by norm_num) (by norm_num)
      hUb.1 hUb.2 (by norm_num) (by norm_num)
    have hw1 : (0 : ℝ) ≤ linearToSrgb (bLinOf (rgbToOklab (⟨139, 92, 246⟩ : RGB))) := by
      rw [heq]
      linarith [ht.1]
    have hw2 : linearToSrgb (bLinOf (rgbToOklab (⟨139, 92, 246⟩ : RGB))) ≤ 1 := by
      rw [heq]
      linarith [ht.2]
    rw [min_eq_right hw2, max_eq_right hw1]
    refine jsRoundR_eq _ 246 ?_ ?_
    · rw [heq]
      push_cast
      linarith [ht.1]
    · rw [heq]
      push_cast
      linarith [ht.2]
  have hcore : oklabToRgb (rgbToOklab (⟨139, 92, 246⟩ : RGB)) =
      (⟨139, 92, 246⟩ : RGB) := by
    rw [oklabToRgb_eq, hchr, hchg, hchb]
    simp only [RGB.mk.injEq]
    norm_num
  have hhex : rgbToHex (⟨139, 92, 246⟩ : RGB) = "#8b5cf6".data := by
    norm_num [rgbToHex, toHexPair, jsRound, jsMax, jsMin, hexDigitLower]
    all_goals decide
  unfold hexToOklch
  rw [if_pos (by decide : hexColorSchemaOK "#8b5cf6".data = true), hrgb]
  show oklchToHex (oklabToOklch (rgbToOklab (⟨139, 92, 246⟩ : RGB))) =
    some "#8b5cf6".data
  unfold oklchToHex
  rw [if_pos hsch, oklch_oklab_cancel _ hcge, hcore, hhex]


/-- C4: for each hex color in the representative sample "#3b82f6",
"#ef4444", "#22c55e", "#f59e0b", "#8b5cf6", the round trip
`oklchToHex (hexToOklch x)` succeeds and returns exactly `x` (the library
emits lowercase hex digits, matching the case of these inputs). -/
theorem c4_oklch_roundtrip_samples :
    ((hexToOklch "#3b82f6".data).bind oklchToHex = some "#3b82f6".data) ∧
    ((hexToOklch "#ef4444".data).bind oklchToHex = some "#ef4444".data) ∧
    ((hexToOklch "#22c55e".data).bind oklchToHex = some "#22c55e".data) ∧
    ((hexToOklch "#f59e0b".data).bind oklchToHex = some "#f59e0b".data) ∧
    ((hexToOklch "#8b5cf6".data).bind oklchToHex = some "#8b5cf6".data) :=
  ⟨c4_sample_1, c4_sample_2, c4_sample_3, c4_sample_4, c4_sample_5⟩

end Bdsg
